import Mathlib

/-
  Verification of the rusty-boy Game Boy emulator core.

  This file is a shallow embedding, in Lean 4, of the parts of the emulator
  that the verified claims are about: the bit-manipulation helpers and
  constants (src/utils.rs), the joypad (src/joypad.rs), the cartridge and its
  bank controllers (src/rom.rs, src/mbc.rs), the memory-management unit
  (src/mmu.rs), the timer (src/timer.rs), the interrupt controller
  (src/interrupts.rs), the pixel-processing unit (src/ppu.rs) and the
  interrupt/HALT skeleton of the CPU (src/cpu.rs).

  Machine integers (the source's `Byte` = u8 and `Word` = u16 aliases,
  and usize counters) are embedded as `Nat`, with wrapping written out
  explicitly (`% 256`, `% 65536`)
  exactly where the Rust source uses `wrapping_add` / `wrapping_sub` or an
  integer cast.  The `isize` PPU dot counter is embedded as `Int`.  Rust
  arrays and the 64 KiB memory are embedded as total functions `Nat → Nat`;
  a state update `self.memory[a] = v` becomes the function that returns `v`
  at `a` and the old value elsewhere.  Emulator methods that mutate `self`
  become functions from the state to the new state.
-/

namespace RustyBoy

/-! ## Constants (src/utils.rs) -/

def MEMORY_SIZE : Nat := 0x10000

def CLOCK_SPEED : Nat := 4194304

/-- Source: `(CLOCK_SPEED as f32 / 59.7275) as usize` in the source; the float
division `4194304.0 / 59.7275` is `70224.44…`, truncated to `70224`. -/
def MAX_CYCLES_PER_FRAME : Nat := 70224

def DIVIDER_REGISTER_ADDR : Nat := 0xFF04
def TIMER_ADDR : Nat := 0xFF05
def TIMER_MODULATOR_ADDR : Nat := 0xFF06
def TIMER_CONTROL_ADDR : Nat := 0xFF07
def CYCLES_PER_DIVIDER_INCREMENT : Nat := 256

def LCD_CONTROL_ADDR : Nat := 0xFF40
def LCD_STATUS_ADDR : Nat := 0xFF41
def CURRENT_SCANLINE_ADDR : Nat := 0xFF44
def CURRENT_SCANLINE_COMPARE_ADDR : Nat := 0xFF45
def MAX_SCANLINE_VALUE : Nat := 153
def CYCLES_PER_SCANLINE : Int := 456

def BACKGROUND_SCROLL_Y : Nat := 0xFF42
def BACKGROUND_SCROLL_X : Nat := 0xFF43
def WINDOW_POS_Y : Nat := 0xFF4A
def WINDOW_POS_X : Nat := 0xFF4B
def BG_COLOR_PALLETTE_ADDR : Nat := 0xFF47

def MAXIMUM_RAM_BANKS : Nat := 4
def RAM_BANK_SIZE : Nat := 0x2000

def INTERRUPT_ENABLE_ADDR : Nat := 0xFFFF
def INTERRUPT_FLAG_ADDR : Nat := 0xFF0F

def JOYPAD_REGISTER_ADDR : Nat := 0xFF00

def RIGHT_BUTTON : Nat := 0
def LEFT_BUTTON : Nat := 1
def UP_BUTTON : Nat := 2
def DOWN_BUTTON : Nat := 3
def START_BUTTON : Nat := 4
def SELECT_BUTTON : Nat := 5
def B_BUTTON : Nat := 6
def A_BUTTON : Nat := 7

def VRAM_BANK_SELECT_ADDR : Nat := 0xFF4F
def BACKGROUND_PALETTE_INDEX_ADDR : Nat := 0xFF68
def BACKGROUND_PALETTE_DATA_ADDR : Nat := 0xFF69

/-- Modelled from the spec: `OBJECT_PALETTE_INDEX_ADDR` is referenced by
src/mmu.rs but its definition is not in the src/ snapshot of utils.rs; the
spec (§4.2 CGB extensions) places the object-palette index/data register
pair at 0xFF6A/0xFF6B. -/
def OBJECT_PALETTE_INDEX_ADDR : Nat := 0xFF6A

/-- Modelled from the spec: `OBJECT_PALETTE_DATA_ADDR` is referenced by
src/mmu.rs but its definition is not in the src/ snapshot of utils.rs; the
spec (§4.2 CGB extensions) places the object-palette data register at
0xFF6B. -/
def OBJECT_PALETTE_DATA_ADDR : Nat := 0xFF6B

inductive LcdMode where
  | H_BLANK
  | V_BLANK
  | SPRITE_SEARCH
  | LCD_TRANSFER
deriving DecidableEq, Repr

/-- The numeric value of an `LcdMode` (`mode as u8` in the source, where the
enum carries discriminants 0..3). -/
def LcdMode.toNat : LcdMode → Nat
  | .H_BLANK => 0
  | .V_BLANK => 1
  | .SPRITE_SEARCH => 2
  | .LCD_TRANSFER => 3

inductive BankingMode where
  | RAM
  | ROM
deriving DecidableEq, Repr

inductive Interrupt where
  | V_BLANK
  | LCD_STAT
  | TIMER
  | SERIAL
  | JOYPAD
deriving DecidableEq, Repr

inductive JoypadMode where
  | DIRECTION
  | ACTION
deriving DecidableEq, Repr

/-- Source: `is_bit_set` from src/utils.rs: `(data & (1 << position)) > 0`. -/
def is_bit_set (data : Nat) (position : Nat) : Bool :=
  data &&& (1 <<< position) > 0

/-- Source: `set_bit` from src/utils.rs: `*data |= 1 << position`. -/
def set_bit (data : Nat) (position : Nat) : Nat :=
  data ||| (1 <<< position)

/-- Source: `reset_bit` from src/utils.rs: `*data &= !(1 << position)`; the bitwise
negation is on `u8`, so it is XOR against 0xFF. -/
def reset_bit (data : Nat) (position : Nat) : Nat :=
  data &&& (0xFF ^^^ (1 <<< position))

/-- Source: `get_bit_val` from src/utils.rs. -/
def get_bit_val (data : Nat) (position : Nat) : Nat :=
  if data &&& (1 <<< position) > 0 then 1 else 0

/-! ## Joypad (src/joypad.rs) -/

structure Joypad where
  /-- Source: `state: [u8; 8]`, 1 for unpressed and 0 for pressed. -/
  state : Nat → Nat

def Joypad.get_button_state (j : Joypad) (button : Nat) : Nat :=
  j.state button

def Joypad.set_button_state (j : Joypad) (button : Nat) : Joypad :=
  { j with state := fun b => if b = button then 0 else j.state b }

def Joypad.reset_button_state (j : Joypad) (button : Nat) : Joypad :=
  { j with state := fun b => if b = button then 1 else j.state b }

def Joypad.get_buttons_for_mode (j : Joypad) (mode : JoypadMode) : Nat :=
  match mode with
  | .DIRECTION =>
      (j.state DOWN_BUTTON <<< 3) ||| (j.state UP_BUTTON <<< 2) |||
      (j.state LEFT_BUTTON <<< 1) ||| j.state RIGHT_BUTTON
  | .ACTION =>
      (j.state START_BUTTON <<< 3) ||| (j.state SELECT_BUTTON <<< 2) |||
      (j.state B_BUTTON <<< 1) ||| j.state A_BUTTON

/-! ## Cartridge ROM (src/rom.rs) -/

structure Rom where
  /-- Source: `data: Vec<u8>`; byte at each index. -/
  data : Nat → Nat
  /-- Source: `data.len()`. -/
  len : Nat
  /-- Modelled from the spec: `Rom::is_cgb` is called by src/mmu.rs but its
  body is not in the src/ snapshot of rom.rs; whether the cartridge runs in
  Color-Game-Boy mode is a fixed property of the ROM header, embedded here
  as an abstract boolean field. -/
  cgb : Bool

def Rom.get_byte (r : Rom) (addr : Nat) : Nat :=
  r.data addr

def Rom.length (r : Rom) : Nat :=
  r.len

def Rom.get_cartridge_type (r : Rom) : Nat :=
  r.data 0x0147

def Rom.get_number_of_banks (r : Rom) : Nat :=
  match r.data 0x0148 with
  | 0x00 => 2
  | 0x01 => 4
  | 0x02 => 8
  | 0x03 => 16
  | 0x04 => 32
  | 0x05 => 64
  | 0x06 => 128
  | 0x07 => 256
  | 0x08 => 512
  | 0x52 => 72
  | 0x53 => 80
  | 0x54 => 96
  | _ => 2

def Rom.is_cgb (r : Rom) : Bool :=
  r.cgb

/-! ## Memory bank controllers (src/mbc.rs) -/

structure Mbc1 where
  /-- Source: `memory: Vec<u8>`, a copy of the ROM image. -/
  memory : Nat → Nat
  rom_bank : Nat
  ram_bank : Nat
  /-- Source: `external_ram: [u8; MAXIMUM_RAM_BANKS * RAM_BANK_SIZE]`. -/
  external_ram : Nat → Nat
  enable_ram : Bool
  /-- Source: `number_of_rom_banks: u8` (`rom.get_number_of_banks() as u8`). -/
  number_of_rom_banks : Nat
  banking_mode : BankingMode

structure Mbc2 where
  memory : Nat → Nat
  rom_bank : Nat
  /-- Source: `external_ram: [u8; 0x200]`. -/
  external_ram : Nat → Nat
  enable_ram : Bool

structure Mbc3 where
  memory : Nat → Nat
  rom_bank : Nat
  ram_bank_or_rtc : Nat
  external_ram : Nat → Nat
  enable_ram_and_rtc : Bool
  number_of_rom_banks : Nat
  rtc_seconds : Nat
  rtc_minutes : Nat
  rtc_hours : Nat
  rtc_dl : Nat
  rtc_dh : Nat

def Mbc1.read_rom (m : Mbc1) (addr : Nat) : Nat :=
  m.memory (addr + m.rom_bank * 0x4000)

def Mbc1.read_ram (m : Mbc1) (addr : Nat) : Nat :=
  m.external_ram (addr + m.ram_bank * RAM_BANK_SIZE)

def Mbc1.write_ram (m : Mbc1) (addr : Nat) (data : Nat) : Mbc1 :=
  { m with external_ram := fun a =>
      if a = addr + m.ram_bank * RAM_BANK_SIZE then data else m.external_ram a }

/-- Source: `Mbc1::handle_banking` from src/mbc.rs.  The `println!` diagnostics for
out-of-range banks and invalid addresses change no state and are dropped. -/
def Mbc1.handle_banking (m : Mbc1) (addr : Nat) (data : Nat) : Mbc1 :=
  if addr ≤ 0x1FFF then
    if data &&& 0xF = 0xA then { m with enable_ram := true }
    else { m with enable_ram := false }
  else if addr ≤ 0x3FFF then
    let new_rom_bank := data &&& 0x1F
    let rom_bank := (m.rom_bank &&& 0b11100000) ||| new_rom_bank
    let rom_bank := if rom_bank = 0 then rom_bank + 1 else rom_bank
    { m with rom_bank := rom_bank }
  else if addr ≤ 0x5FFF then
    match m.banking_mode with
    | .RAM => { m with ram_bank := data &&& 0x03 }
    | .ROM =>
        let new_rom_bank := data &&& 0xE0
        let rom_bank := new_rom_bank ||| ((m.rom_bank % 256) &&& 0b00011111)
        let rom_bank := if rom_bank = 0 then rom_bank + 1 else rom_bank
        { m with rom_bank := rom_bank }
  else if addr ≤ 0x7FFF then
    { m with banking_mode := if is_bit_set data 0 then .RAM else .ROM }
  else
    m

def Mbc2.read_rom (m : Mbc2) (addr : Nat) : Nat :=
  m.memory (addr + m.rom_bank * 0x4000)

def Mbc2.read_ram (m : Mbc2) (addr : Nat) : Nat :=
  m.external_ram (addr % 0x200)

def Mbc2.write_ram (m : Mbc2) (addr : Nat) (data : Nat) : Mbc2 :=
  if m.enable_ram then
    { m with external_ram := fun a =>
        if a = addr % 0x200 then data &&& 0xF else m.external_ram a }
  else
    m

def Mbc2.handle_banking (m : Mbc2) (addr : Nat) (data : Nat) : Mbc2 :=
  if addr < 0x4000 then
    let upper_byte := (addr >>> 8) % 256
    if is_bit_set upper_byte 0 then
      let rom_bank := data &&& 0xF
      let rom_bank := if rom_bank = 0 then 1 else rom_bank
      { m with rom_bank := rom_bank }
    else
      { m with enable_ram := data = 0xA }
  else
    m

def Mbc3.read_rom (m : Mbc3) (addr : Nat) : Nat :=
  m.memory (addr + m.rom_bank * 0x4000)

def Mbc3.read_ram (m : Mbc3) (addr : Nat) : Nat :=
  if m.ram_bank_or_rtc ≤ 0x03 then
    m.external_ram (addr + m.ram_bank_or_rtc * RAM_BANK_SIZE)
  else if m.ram_bank_or_rtc = 0x08 then m.rtc_seconds
  else if m.ram_bank_or_rtc = 0x09 then m.rtc_minutes
  else if m.ram_bank_or_rtc = 0x0A then m.rtc_hours
  else if m.ram_bank_or_rtc = 0x0B then m.rtc_dl
  else if m.ram_bank_or_rtc = 0x0C then m.rtc_dh
  else 0

def Mbc3.write_ram (m : Mbc3) (addr : Nat) (data : Nat) : Mbc3 :=
  if m.enable_ram_and_rtc then
    if m.ram_bank_or_rtc ≤ 0x03 then
      { m with external_ram := fun a =>
          if a = addr + m.ram_bank_or_rtc * RAM_BANK_SIZE then data
          else m.external_ram a }
    else if m.ram_bank_or_rtc = 0x08 then { m with rtc_seconds := data }
    else if m.ram_bank_or_rtc = 0x09 then { m with rtc_minutes := data }
    else if m.ram_bank_or_rtc = 0x0A then { m with rtc_hours := data }
    else if m.ram_bank_or_rtc = 0x0B then { m with rtc_dl := data }
    else if m.ram_bank_or_rtc = 0x0C then { m with rtc_dh := data }
    else m
  else
    m

def Mbc3.handle_banking (m : Mbc3) (addr : Nat) (data : Nat) : Mbc3 :=
  if addr ≤ 0x1FFF then
    if data &&& 0xF = 0xA then { m with enable_ram_and_rtc := true }
    else { m with enable_ram_and_rtc := false }
  else if addr ≤ 0x3FFF then
    let rom_bank := data &&& 0x7F
    let rom_bank := if rom_bank = 0 then 1 else rom_bank
    { m with rom_bank := rom_bank }
  else if addr ≤ 0x5FFF then
    { m with ram_bank_or_rtc := data }
  else
    m

/-- A boxed `dyn Mbc` trait object: one of the three controllers. -/
inductive MbcState where
  | mbc1 : Mbc1 → MbcState
  | mbc2 : Mbc2 → MbcState
  | mbc3 : Mbc3 → MbcState

def MbcState.read_rom (m : MbcState) (addr : Nat) : Nat :=
  match m with
  | .mbc1 s => s.read_rom addr
  | .mbc2 s => s.read_rom addr
  | .mbc3 s => s.read_rom addr

def MbcState.read_ram (m : MbcState) (addr : Nat) : Nat :=
  match m with
  | .mbc1 s => s.read_ram addr
  | .mbc2 s => s.read_ram addr
  | .mbc3 s => s.read_ram addr

def MbcState.write_ram (m : MbcState) (addr : Nat) (data : Nat) : MbcState :=
  match m with
  | .mbc1 s => .mbc1 (s.write_ram addr data)
  | .mbc2 s => .mbc2 (s.write_ram addr data)
  | .mbc3 s => .mbc3 (s.write_ram addr data)

def MbcState.handle_banking (m : MbcState) (addr : Nat) (data : Nat) : MbcState :=
  match m with
  | .mbc1 s => .mbc1 (s.handle_banking addr data)
  | .mbc2 s => .mbc2 (s.handle_banking addr data)
  | .mbc3 s => .mbc3 (s.handle_banking addr data)

/-! ## Memory management unit (src/mmu.rs) -/

structure Mmu where
  /-- Source: `memory: [u8; MEMORY_SIZE]`, the flat 64 KiB address space. -/
  memory : Nat → Nat
  oam_access : Bool
  color_pallette_access : Bool
  vram_access : Bool
  timer_frequency_changed : Bool
  rom : Rom
  joypad : Joypad
  mbc : Option MbcState
  /-- Source: `cgb_vram: [u8; 0x2000 * 2]`. -/
  cgb_vram : Nat → Nat
  cgb_vram_bank : Nat
  /-- Source: `cgb_background_palettes: [u8; 64]`. -/
  cgb_background_palettes : Nat → Nat
  /-- Source: `cgb_object_palettes: [u8; 64]`. -/
  cgb_object_palettes : Nat → Nat

def Mmu.is_cgb (m : Mmu) : Bool :=
  m.rom.is_cgb

def Mmu.read_rom_bank (m : Mmu) (addr : Nat) : Nat :=
  match m.mbc with
  | some mbc => mbc.read_rom (addr - 0x4000)
  | none => m.rom.get_byte addr

def Mmu.read_ram_bank (m : Mmu) (addr : Nat) : Nat :=
  match m.mbc with
  | some mbc => mbc.read_ram (addr - 0xA000)
  | none => m.memory addr

def Mmu.write_ram_bank (m : Mmu) (addr : Nat) (data : Nat) : Mmu :=
  match m.mbc with
  | some mbc => { m with mbc := some (mbc.write_ram (addr - 0xA000) data) }
  | none => { m with memory := fun a => if a = addr then data else m.memory a }

def Mmu.handle_banking (m : Mmu) (addr : Nat) (data : Nat) : Mmu :=
  match m.mbc with
  | some mbc => { m with mbc := some (mbc.handle_banking addr data) }
  | none => m

/-- Source: `Mmu::read_byte` from src/mmu.rs. -/
def Mmu.read_byte (m : Mmu) (addr : Nat) : Nat :=
  if (0xFE00 ≤ addr ∧ addr ≤ 0xFE9F ∧ m.oam_access = false) ∨
     (0x8000 ≤ addr ∧ addr ≤ 0x9FFF ∧ m.vram_access = false) then
    0xFF
  else if 0x4000 ≤ addr ∧ addr < 0x8000 then
    m.read_rom_bank addr
  else if 0x8000 ≤ addr ∧ addr < 0xA000 ∧ m.is_cgb = true then
    m.cgb_vram (addr - 0x8000 + 0x2000 * m.cgb_vram_bank)
  else if 0xA000 ≤ addr ∧ addr < 0xC000 then
    m.read_ram_bank addr
  else
    m.memory addr

def Mmu.update_timer_frequency_changed (m : Mmu) (val : Bool) : Mmu :=
  { m with timer_frequency_changed := val }

def Mmu.is_timer_frequency_changed (m : Mmu) : Bool :=
  m.timer_frequency_changed

def Mmu.update_scanline (m : Mmu) : Mmu :=
  { m with memory := fun a =>
      if a = CURRENT_SCANLINE_ADDR then (m.memory CURRENT_SCANLINE_ADDR + 1) % 256
      else m.memory a }

def Mmu.reset_scanline (m : Mmu) : Mmu :=
  { m with memory := fun a =>
      if a = CURRENT_SCANLINE_ADDR then 0 else m.memory a }

def Mmu.restrict_oam_access (m : Mmu) : Mmu :=
  { m with oam_access := false }

def Mmu.open_oam_access (m : Mmu) : Mmu :=
  { m with oam_access := true }

def Mmu.restrict_vram_access (m : Mmu) : Mmu :=
  { m with vram_access := false }

def Mmu.open_vram_access (m : Mmu) : Mmu :=
  { m with vram_access := true }

def Mmu.increment_timer_register (m : Mmu) : Mmu :=
  { m with memory := fun a =>
      if a = TIMER_ADDR then (m.memory TIMER_ADDR + 1) % 256 else m.memory a }

def Mmu.increment_divider_register (m : Mmu) : Mmu :=
  { m with memory := fun a =>
      if a = DIVIDER_REGISTER_ADDR then (m.memory DIVIDER_REGISTER_ADDR + 1) % 256
      else m.memory a }

def Mmu.handle_vram_write (m : Mmu) (addr : Nat) (data : Nat) : Mmu :=
  if m.is_cgb then
    { m with cgb_vram := fun a =>
        if a = addr - 0x8000 + 0x2000 * m.cgb_vram_bank then data else m.cgb_vram a }
  else
    { m with memory := fun a => if a = addr then data else m.memory a }

def Mmu.do_vram_bank_switch (m : Mmu) (addr : Nat) (data : Nat) : Mmu :=
  let m := if m.is_cgb then { m with cgb_vram_bank := get_bit_val data 0 } else m
  { m with memory := fun a => if a = addr then data else m.memory a }

/-- Source: `Mmu::handle_cgb_palette_write` from src/mmu.rs.  The source panics when
called with an address other than the two palette data registers; its only
callers (the two `write_byte` arms) pass exactly those, so that arm is
embedded as the identity. -/
def Mmu.handle_cgb_palette_write (m : Mmu) (addr : Nat) (data : Nat) : Mmu :=
  if addr = BACKGROUND_PALETTE_DATA_ADDR ∨ addr = OBJECT_PALETTE_DATA_ADDR then
    let palette_index_addr :=
      if addr = BACKGROUND_PALETTE_DATA_ADDR then BACKGROUND_PALETTE_INDEX_ADDR
      else OBJECT_PALETTE_INDEX_ADDR
    if m.is_cgb then
      let palette_index := m.memory palette_index_addr
      let auto_increment := is_bit_set palette_index 7
      let palette_addr := palette_index &&& 0b111111
      let m :=
        if addr = BACKGROUND_PALETTE_DATA_ADDR then
          { m with cgb_background_palettes := fun a =>
              if a = palette_addr then data else m.cgb_background_palettes a }
        else
          { m with cgb_object_palettes := fun a =>
              if a = palette_addr then data else m.cgb_object_palettes a }
      if auto_increment then
        let palette_addr := (palette_addr + 1) &&& 0b111111
        let new_idx := (palette_index &&& 0b11000000) ||| palette_addr
        { m with memory := fun a =>
            if a = palette_index_addr then new_idx else m.memory a }
      else m
    else
      { m with memory := fun a =>
          if a = palette_index_addr then data else m.memory a }
  else m

def Mmu.handle_joypad (m : Mmu) (addr : Nat) (data : Nat) : Mmu :=
  let mode_bits := (data >>> 4) &&& 0x3
  let mode : Option JoypadMode :=
    if mode_bits = 1 then some .ACTION
    else if mode_bits = 2 then some .DIRECTION
    else none
  match mode with
  | some joypad_mode =>
      let lower_nibble := m.joypad.get_buttons_for_mode joypad_mode
      { m with memory := fun a =>
          if a = addr then (data &&& 0xF0) ||| lower_nibble else m.memory a }
  | none =>
      { m with memory := fun a =>
          if a = addr then (data &&& 0xF0) ||| 0xF else m.memory a }

/-- One iteration of the `Mmu::do_dma_transfer` loop:
`self.memory[0xFE00 + i] = self.read_byte(start_addr + i)`. -/
def Mmu.dma_step (m : Mmu) (start i : Nat) : Mmu :=
  { m with memory := fun a =>
      if a = 0xFE00 + i then m.read_byte (start + i) else m.memory a }

/-- The `for i in 0..count` loop of `Mmu::do_dma_transfer`, iterations
performed in ascending order of `i`. -/
def Mmu.dma_copy (m : Mmu) (start : Nat) : Nat → Mmu
  | 0 => m
  | n + 1 => (m.dma_copy start n).dma_step start n

def Mmu.do_dma_transfer (m : Mmu) (data : Nat) : Mmu :=
  m.dma_copy (data * 0x100) 0xA0

def Mmu.do_timer_control_update (m : Mmu) (data : Nat) : Mmu :=
  let m := m.update_timer_frequency_changed true
  { m with memory := fun a =>
      if a = TIMER_CONTROL_ADDR then data else m.memory a }

/-- Source: `Mmu::write_byte` from src/mmu.rs.  The `match addr` arms cover disjoint
address ranges and are embedded, in the same order, as a chain of
conditionals. -/
def Mmu.write_byte (m : Mmu) (addr : Nat) (data : Nat) : Mmu :=
  if (0xFE00 ≤ addr ∧ addr ≤ 0xFE9F ∧ m.oam_access = false) ∨
     (0x8000 ≤ addr ∧ addr ≤ 0x9FFF ∧ m.vram_access = false) then
    m
  else if addr ≤ 0x7FFF then
    m.handle_banking addr data
  else if addr ≤ 0x9FFF then
    m.handle_vram_write addr data
  else if addr ≤ 0xBFFF then
    m.write_ram_bank addr data
  else if 0xE000 ≤ addr ∧ addr ≤ 0xFDFF then
    { m with memory := fun a =>
        if a = addr then data
        else if a = addr - 0x2000 then data
        else m.memory a }
  else if 0xFEA0 ≤ addr ∧ addr ≤ 0xFEFF then
    m
  else if addr = JOYPAD_REGISTER_ADDR then
    m.handle_joypad addr data
  else if addr = DIVIDER_REGISTER_ADDR ∨ addr = CURRENT_SCANLINE_ADDR then
    { m with memory := fun a => if a = addr then 0 else m.memory a }
  else if addr = 0xFF46 then
    m.do_dma_transfer data
  else if addr = 0xFF4F then
    m.do_vram_bank_switch addr data
  else if addr = TIMER_CONTROL_ADDR then
    m.do_timer_control_update data
  else if addr = BACKGROUND_PALETTE_DATA_ADDR then
    m.handle_cgb_palette_write addr data
  else if addr = OBJECT_PALETTE_DATA_ADDR then
    m.handle_cgb_palette_write addr data
  else
    { m with memory := fun a => if a = addr then data else m.memory a }

/-! ## Interrupt controller (src/interrupts.rs) -/

/-- The index of an interrupt in `AVAILABLE_INTERRUPTS`
(`AVAILABLE_INTERRUPTS.iter().position(|&i| i == interrupt)`). -/
def interrupt_position : Interrupt → Nat
  | .V_BLANK => 0
  | .LCD_STAT => 1
  | .TIMER => 2
  | .SERIAL => 3
  | .JOYPAD => 4

def is_interrupt_enabled (m : Mmu) (interrupt_idx : Nat) : Bool :=
  is_bit_set (m.read_byte INTERRUPT_ENABLE_ADDR) interrupt_idx

def is_interrupt_requested (m : Mmu) (interrupt_idx : Nat) : Bool :=
  is_bit_set (m.read_byte INTERRUPT_FLAG_ADDR) interrupt_idx

/-- Source: `get_servicable_interrupt` from src/interrupts.rs: the `for i in 0..5`
loop returns the first (lowest-index) interrupt that is both enabled and
requested. -/
def get_servicable_interrupt (m : Mmu) : Option Interrupt :=
  if is_interrupt_enabled m 0 ∧ is_interrupt_requested m 0 then some .V_BLANK
  else if is_interrupt_enabled m 1 ∧ is_interrupt_requested m 1 then some .LCD_STAT
  else if is_interrupt_enabled m 2 ∧ is_interrupt_requested m 2 then some .TIMER
  else if is_interrupt_enabled m 3 ∧ is_interrupt_requested m 3 then some .SERIAL
  else if is_interrupt_enabled m 4 ∧ is_interrupt_requested m 4 then some .JOYPAD
  else none

def request_interrupt (m : Mmu) (interrupt : Interrupt) : Mmu :=
  let interrupts_requested := m.read_byte INTERRUPT_FLAG_ADDR
  let interrupt_bit := interrupt_position interrupt
  m.write_byte INTERRUPT_FLAG_ADDR (set_bit interrupts_requested interrupt_bit)

/-! ## Timer (src/timer.rs) -/

structure Timer where
  divider_counter : Nat
  timer_counter : Nat

def Timer.is_timer_enabled (m : Mmu) : Bool :=
  is_bit_set (m.read_byte TIMER_CONTROL_ADDR) 2

def Timer.get_timer_frequency (m : Mmu) : Nat :=
  let freq_compare_val := m.read_byte TIMER_CONTROL_ADDR &&& 0x3
  if freq_compare_val = 0 then CLOCK_SPEED / 4096
  else if freq_compare_val = 1 then CLOCK_SPEED / 262144
  else if freq_compare_val = 2 then CLOCK_SPEED / 65536
  else CLOCK_SPEED / 16384

def Timer.update_divider_register (t : Timer) (m : Mmu) (cycles : Nat) :
    Timer × Mmu :=
  let divider_counter := t.divider_counter + cycles
  if divider_counter ≥ CYCLES_PER_DIVIDER_INCREMENT then
    ({ t with divider_counter := divider_counter - CYCLES_PER_DIVIDER_INCREMENT },
     m.increment_divider_register)
  else
    ({ t with divider_counter := divider_counter }, m)

/-- The `while self.timer_counter >= freq` loop of `Timer::update`.
`freq` comes from `get_timer_frequency`, whose four possible results
(1024, 16, 64, 256) are all positive; the `0 < freq` conjunct in the guard
only serves termination and never changes the behaviour reached from the
source. -/
def timer_tick_loop (freq : Nat) (t : Timer) (m : Mmu) : Timer × Mmu :=
  if _h : 0 < freq ∧ freq ≤ t.timer_counter then
    let t' := { t with timer_counter := t.timer_counter - freq }
    let m1 := m.increment_timer_register
    let m2 :=
      if m1.read_byte TIMER_ADDR = 0 then
        let m' := request_interrupt m1 .TIMER
        m'.write_byte TIMER_ADDR (m'.read_byte TIMER_MODULATOR_ADDR)
      else m1
    timer_tick_loop freq t' m2
  else
    (t, m)
termination_by t.timer_counter
decreasing_by omega

/-- Source: `Timer::update` from src/timer.rs. -/
def Timer.update (t : Timer) (m : Mmu) (cycles : Nat) : Timer × Mmu :=
  let (t, m) := t.update_divider_register m cycles
  let freq := Timer.get_timer_frequency m
  let (t, m) :=
    if m.is_timer_frequency_changed then
      ({ t with timer_counter := 0 }, m.update_timer_frequency_changed false)
    else (t, m)
  if Timer.is_timer_enabled m then
    timer_tick_loop freq { t with timer_counter := t.timer_counter + cycles } m
  else
    (t, m)

/-! ## Pixel processing unit (src/ppu.rs)

The `Ppu` struct's `screen` pixel buffer and the `debug`/`printed` flags are
not part of the embedded state: `draw_scanline` (with `render_background` and
`render_sprites`) takes `&mut self, mmu: &Mmu` and writes only into
`self.screen`, so it cannot change the MMU or the scanline counter; no claim
concerns the pixel buffer, and `draw_scanline` is embedded as the identity on
the embedded state. -/

structure Ppu where
  /-- Source: `scanline_counter: isize`. -/
  scanline_counter : Int

def Ppu.get_current_scanline (m : Mmu) : Nat :=
  m.read_byte CURRENT_SCANLINE_ADDR

def Ppu.is_lcd_enabled (m : Mmu) : Bool :=
  is_bit_set (m.read_byte LCD_CONTROL_ADDR) 7

def Ppu.set_lcd_mode (m : Mmu) (mode : LcdMode) : Mmu :=
  let current_status := m.read_byte LCD_STATUS_ADDR
  m.write_byte LCD_STATUS_ADDR ((current_status &&& 0b11111100) ^^^ mode.toNat)

/-- Source: `Ppu::get_lcd_mode`.  `msb << 1 | lsb` is at most 3, so the source's
panic arm is unreachable and the final branch is `LCD_TRANSFER`. -/
def Ppu.get_lcd_mode (m : Mmu) : LcdMode :=
  let msb := get_bit_val (m.read_byte LCD_STATUS_ADDR) 1
  let lsb := get_bit_val (m.read_byte LCD_STATUS_ADDR) 0
  let lcd_mode := (msb <<< 1) ||| lsb
  if lcd_mode = 0 then .H_BLANK
  else if lcd_mode = 1 then .V_BLANK
  else if lcd_mode = 2 then .SPRITE_SEARCH
  else .LCD_TRANSFER

def Ppu.is_vblank_stat_interrupt_enabled (m : Mmu) : Bool :=
  is_bit_set (m.read_byte LCD_STATUS_ADDR) 4

def Ppu.is_oam_stat_interrupt_enabled (m : Mmu) : Bool :=
  is_bit_set (m.read_byte LCD_STATUS_ADDR) 5

def Ppu.is_hblank_stat_interrupt_enabled (m : Mmu) : Bool :=
  is_bit_set (m.read_byte LCD_STATUS_ADDR) 3

def Ppu.update_coincidence_flag (m : Mmu) (val : Bool) : Mmu :=
  let status := m.read_byte LCD_STATUS_ADDR
  let status := if val then set_bit status 2 else reset_bit status 2
  m.write_byte LCD_STATUS_ADDR status

/-- Source: `Ppu::update_lcd_status` from src/ppu.rs. -/
def Ppu.update_lcd_status (p : Ppu) (m : Mmu) : Ppu × Mmu :=
  let scanline := m.read_byte CURRENT_SCANLINE_ADDR
  let scanline_compare := m.read_byte CURRENT_SCANLINE_COMPARE_ADDR
  if Ppu.is_lcd_enabled m = false then
    let p := { p with scanline_counter := CYCLES_PER_SCANLINE }
    let m := m.reset_scanline
    let m := Ppu.set_lcd_mode m .H_BLANK
    let m := m.open_oam_access
    let m := m.open_vram_access
    (p, m)
  else
    let current_mode := Ppu.get_lcd_mode m
    let max_cycles_per_frame : Int := MAX_CYCLES_PER_FRAME
    let (m, should_request_stat_interrupt) :=
      if scanline ≥ 144 then
        let m := Ppu.set_lcd_mode m .V_BLANK
        let m := m.open_oam_access
        let m := m.open_vram_access
        (m, Ppu.is_vblank_stat_interrupt_enabled m)
      else if p.scanline_counter ≥ max_cycles_per_frame - 80 then
        let m := Ppu.set_lcd_mode m .SPRITE_SEARCH
        let m := m.restrict_oam_access
        let m := m.open_vram_access
        (m, Ppu.is_oam_stat_interrupt_enabled m)
      else if p.scanline_counter ≥ max_cycles_per_frame - 80 - 172 then
        let m := Ppu.set_lcd_mode m .LCD_TRANSFER
        let m := m.restrict_oam_access
        let m := m.restrict_vram_access
        (m, false)
      else
        let m := Ppu.set_lcd_mode m .H_BLANK
        let m := m.open_oam_access
        let m := m.open_vram_access
        (m, Ppu.is_hblank_stat_interrupt_enabled m)
    let m :=
      if current_mode ≠ Ppu.get_lcd_mode m ∧ should_request_stat_interrupt then
        request_interrupt m .LCD_STAT
      else m
    let m :=
      if scanline = scanline_compare then
        request_interrupt (Ppu.update_coincidence_flag m true) .LCD_STAT
      else
        Ppu.update_coincidence_flag m false
    (p, m)

/-- Source: `Ppu::update_graphics` from src/ppu.rs (the unused `debug` parameter
feeds only commented-out diagnostics and is dropped). -/
def Ppu.update_graphics (p : Ppu) (m : Mmu) (cycles : Nat) : Ppu × Mmu :=
  let (p, m) := p.update_lcd_status m
  let p :=
    if Ppu.is_lcd_enabled m then
      { p with scanline_counter := p.scanline_counter - cycles }
    else p
  if p.scanline_counter ≤ 0 then
    let p := { p with scanline_counter := CYCLES_PER_SCANLINE }
    let scanline := m.read_byte CURRENT_SCANLINE_ADDR
    let m :=
      if scanline = 144 then request_interrupt m .V_BLANK
      else if scanline > MAX_SCANLINE_VALUE then m.reset_scanline
      else m
    (p, m.update_scanline)
  else
    (p, m)

/-! ## CPU (src/cpu.rs)

The register pairs are embedded as single 16-bit words (cf. the design note
in the spec: the source's union of a `u16` with its two `u8` halves is
equivalent, on a little-endian host, to one word with shift-and-mask
accessors).  The `debug_ctr`/`debug_pc`/`debug_log` fields feed only
commented-out diagnostics and are omitted. -/

inductive Operation where
  | ADC | ADD | ADD_16_BIT | AND | CALL | CCF | CP | CPL | DAA
  | DEC | DEC_16_BIT | DI | EI | HALT | INC | INC_16_BIT | JP | JR
  | LD | LDH | NOP | OR | POP | PREFIX | PUSH | RET | RETI | RLA
  | RLCA | RRA | RRCA | RST | SBC | SCF | STOP | SUB | XOR
deriving DecidableEq, Repr

structure Cpu where
  mmu : Mmu
  timer : Timer
  ppu : Ppu
  af : Nat
  bc : Nat
  de : Nat
  hl : Nat
  program_counter : Nat
  stack_pointer : Nat
  interrupts_enabled : Bool
  will_enable_interrupts : Bool
  will_disable_interrupts : Bool
  halted : Bool
  cycle_tracker : Nat
  last_op : Option Operation

def Cpu.read_memory (c : Cpu) (addr : Nat) : Nat :=
  c.mmu.read_byte addr

/-- Source: `Cpu::write_memory`; the Blargg serial-out branch only prints and is
dropped. -/
def Cpu.write_memory (c : Cpu) (addr : Nat) (data : Nat) : Cpu :=
  { c with mmu := c.mmu.write_byte addr data }

/-- Source: `Cpu::sync_cycles`: forward the elapsed cycles to the Timer and the PPU
and advance the in-instruction cycle tracker. -/
def Cpu.sync_cycles (c : Cpu) (cycles : Nat) : Cpu :=
  let (t, m) := c.timer.update c.mmu cycles
  let (p, m) := Ppu.update_graphics c.ppu m cycles
  { c with timer := t, ppu := p, mmu := m,
           cycle_tracker := (c.cycle_tracker + cycles) % 256 }

def Cpu.push_byte_to_stack (c : Cpu) (data : Nat) : Cpu :=
  let c := { c with stack_pointer := (c.stack_pointer + 0x10000 - 1) % 0x10000 }
  c.write_memory c.stack_pointer data

def Cpu.push_word_to_stack (c : Cpu) (data : Nat) : Cpu :=
  let lo := data &&& 0xFF
  let hi := data >>> 8
  let c := c.push_byte_to_stack (hi % 256)
  c.push_byte_to_stack (lo % 256)

/-- Source: `Cpu::service_interrupt` from src/cpu.rs. -/
def Cpu.service_interrupt (c : Cpu) (interrupt : Interrupt) : Cpu :=
  let c := { c with halted := false }
  if c.interrupts_enabled then
    let interrupt_bit := interrupt_position interrupt
    let c := { c with interrupts_enabled := false }
    let interrupts_requested := c.read_memory INTERRUPT_FLAG_ADDR
    let c := c.write_memory INTERRUPT_FLAG_ADDR
               (reset_bit interrupts_requested interrupt_bit)
    let c := c.push_word_to_stack c.program_counter
    { c with program_counter :=
        match interrupt with
        | .V_BLANK => 0x40
        | .LCD_STAT => 0x48
        | .TIMER => 0x50
        | .SERIAL => 0x58
        | .JOYPAD => 0x60 }
  else
    c

/-- Source: `Cpu::handle_interrupts` from src/cpu.rs. -/
def Cpu.handle_interrupts (c : Cpu) : Cpu :=
  match get_servicable_interrupt c.mmu with
  | some interrupt => c.service_interrupt interrupt
  | none => c

/-- Source: `Cpu::toggle_interrupts_enabled` from src/cpu.rs: the EI/DI latches fire
depending on `last_op`, the operation of the *previous* instruction. -/
def Cpu.toggle_interrupts_enabled (c : Cpu) : Cpu :=
  match c.last_op with
  | none => c
  | some op =>
      if op = .DI ∧ c.will_disable_interrupts then
        { c with will_disable_interrupts := false, interrupts_enabled := false }
      else if op = .EI ∧ c.will_enable_interrupts then
        { c with will_enable_interrupts := false, interrupts_enabled := true }
      else
        c

def Cpu.do_disable_interrupts (c : Cpu) : Cpu :=
  { c with will_disable_interrupts := true }

def Cpu.do_enable_interrupts (c : Cpu) : Cpu :=
  { c with will_enable_interrupts := true }

def Cpu.do_halt (c : Cpu) : Cpu :=
  { c with halted := true }

/-- Modelled from the spec: `OPCODE_MAP` lives in src/ops.rs, which is not in
the src/ snapshot.  The spec (§4.1) requires the full LR35902 instruction
set; the LR35902 has eleven unused primary opcodes with no instruction, and
on an unknown opcode `execute`'s `.expect(…)` panics (spec §7: unknown
opcodes are programmer errors that terminate).  A byte is recognized exactly
when it is not one of those eleven. -/
def opcode_recognized (op : Nat) : Bool :=
  !(op = 0xD3 ∨ op = 0xDB ∨ op = 0xDD ∨ op = 0xE3 ∨ op = 0xE4 ∨
    op = 0xEB ∨ op = 0xEC ∨ op = 0xED ∨ op = 0xF4 ∨ op = 0xFC ∨ op = 0xFD)

/-- Source: `Cpu::execute` from src/cpu.rs, embedded for states with
`halted = true`: reset the cycle tracker, fetch the opcode byte at PC and
look it up (`none` embeds the panic on an unrecognized opcode), then — since
the CPU is halted — sync 4 T-cycles and return 4 without touching PC.  For
non-halted states `execute` dispatches over the full instruction set, which
no claim needs; `none` is returned there. -/
def Cpu.execute_halted (c : Cpu) : Option (Cpu × Nat) :=
  let c := { c with cycle_tracker := 0 }
  let op := c.read_memory c.program_counter
  if opcode_recognized op = false then
    none
  else if c.halted then
    some (c.sync_cycles 4, 4)
  else
    none

/-- Source: `Cpu::execute` from src/cpu.rs, embedded for a non-halted state whose
fetched opcode decodes (through `OPCODE_MAP` in src/ops.rs, not in the
snapshot) to one of the one-byte operations NOP, EI, DI, HALT; each takes 4
T-cycles (modelled from the spec: every LR35902 cycle count is a multiple of
4, and these four one-byte instructions take one M-cycle).  The body follows
`execute`: reset the cycle tracker, advance PC past the opcode, run the
operation's handler, run `toggle_interrupts_enabled` (still seeing the
previous instruction in `last_op`), record `last_op`, and flush the
remaining cycles.  Other operations are not embedded (`none`). -/
def Cpu.execute_op (c : Cpu) (op : Operation) : Option (Cpu × Nat) :=
  let c := { c with cycle_tracker := 0 }
  let c := { c with program_counter := (c.program_counter + 1) % 0x10000 }
  let step : Option (Cpu × Nat) :=
    match op with
    | .DI => some (c.do_disable_interrupts, 4)
    | .EI => some (c.do_enable_interrupts, 4)
    | .HALT => some (c.do_halt, 4)
    | .NOP => some (c, 4)
    | _ => none
  match step with
  | none => none
  | some (c, cycles) =>
      let c := c.toggle_interrupts_enabled
      let c := { c with last_op := some op }
      let c := c.sync_cycles (cycles - c.cycle_tracker)
      some (c, cycles)

/-! ## Concrete states and auxiliary tables used by the theorems -/

def rom0 : Rom :=
  { data := fun _ => 0, len := 0x8000, cgb := false }

def joypad0 : Joypad :=
  { state := fun _ => 1 }

/-- A DMG MMU with no cartridge controller and the given memory contents. -/
def mk_mmu (mem : Nat → Nat) : Mmu :=
  { memory := mem
    oam_access := true
    color_pallette_access := true
    vram_access := true
    timer_frequency_changed := false
    rom := rom0
    joypad := joypad0
    mbc := none
    cgb_vram := fun _ => 0
    cgb_vram_bank := 0
    cgb_background_palettes := fun _ => 0
    cgb_object_palettes := fun _ => 0 }

def mbc1_0 : Mbc1 :=
  { memory := fun _ => 0
    rom_bank := 1
    ram_bank := 0
    external_ram := fun _ => 0
    enable_ram := false
    number_of_rom_banks := 128
    banking_mode := .ROM }

def mbc2_0 : Mbc2 :=
  { memory := fun _ => 0
    rom_bank := 1
    external_ram := fun _ => 0
    enable_ram := false }

def mbc3_0 : Mbc3 :=
  { memory := fun _ => 0
    rom_bank := 1
    ram_bank_or_rtc := 0
    external_ram := fun _ => 0
    enable_ram_and_rtc := false
    number_of_rom_banks := 128
    rtc_seconds := 0
    rtc_minutes := 0
    rtc_hours := 0
    rtc_dl := 0
    rtc_dh := 0 }

/-- An MBC1 on a 128-bank cartridge whose combined ROM bank number is 0x20
(high bank bits 0b001, low five bits zero); ROM byte 0x77 planted at the
start of bank 0x20. -/
def mbc1_bank_0x20 : Mbc1 :=
  { mbc1_0 with
    rom_bank := 0x20
    memory := fun a => if a = 0x20 * 0x4000 then 0x77 else 0 }

/-- An MMU in which the PPU has restricted both OAM and VRAM access
(as during mode 3). -/
def mmu_restricted : Mmu :=
  { mk_mmu (fun _ => 0x42) with oam_access := false, vram_access := false }

/-- TAC = 0x05 (timer enabled, threshold 16), TIMA = 0xFF, TMA = 0x42. -/
def mmu_timer : Mmu :=
  mk_mmu (fun a =>
    if a = 0xFF07 then 0x05
    else if a = 0xFF05 then 0xFF
    else if a = 0xFF06 then 0x42 else 0)

/-- A concrete CPU at the post-boot state with IME cleared and no latch
armed. -/
def cpu0 : Cpu :=
  { mmu := mk_mmu (fun _ => 0)
    timer := Timer.mk 0 0
    ppu := Ppu.mk 456
    af := 0x01B0
    bc := 0x0013
    de := 0x00D8
    hl := 0x014D
    program_counter := 0x100
    stack_pointer := 0xFFFE
    interrupts_enabled := false
    will_enable_interrupts := false
    will_disable_interrupts := false
    halted := false
    cycle_tracker := 0
    last_op := none }

def cpu_halt : Cpu :=
  { cpu0 with halted := true }

/-- LCD enabled (LCDC = 0x91), LY = 154, everything else zero. -/
def mmu_ly154 : Mmu :=
  mk_mmu (fun a =>
    if a = 0xFF40 then 0x91 else if a = 0xFF44 then 154 else 0)

/-- LCD enabled (LCDC = 0x91), LY = 143, everything else zero. -/
def mmu_ly143 : Mmu :=
  mk_mmu (fun a =>
    if a = 0xFF40 then 0x91 else if a = 0xFF44 then 143 else 0)

/-- LCD enabled (LCDC = 0x91), LY = 144, everything else zero. -/
def mmu_ly144 : Mmu :=
  mk_mmu (fun a =>
    if a = 0xFF40 then 0x91 else if a = 0xFF44 then 144 else 0)

/-- LCD enabled (LCDC = 0x91), LY = 0, STAT = 0: the first 80 dots of
scanline 0, where the claimed mode is 2 (OAM search). -/
def mmu_ly0 : Mmu :=
  mk_mmu (fun a => if a = 0xFF40 then 0x91 else 0)

/-- The interrupt vector table from the `match` in `Cpu::service_interrupt`. -/
def interrupt_vector : Interrupt → Nat
  | .V_BLANK => 0x40
  | .LCD_STAT => 0x48
  | .TIMER => 0x50
  | .SERIAL => 0x58
  | .JOYPAD => 0x60

/-- IME set, VBlank enabled and requested (IE = IF = 1), LCD enabled
(LCDC = 0x91), SP = 0xD000, timer counters 5/7, PPU dot counter 456. -/
def cpu_int : Cpu :=
  { cpu0 with
    interrupts_enabled := true
    stack_pointer := 0xD000
    timer := Timer.mk 5 7
    mmu := mk_mmu (fun a =>
      if a = 0xFFFF then 1
      else if a = 0xFF0F then 1
      else if a = 0xFF40 then 0x91 else 0) }

/-! ## Helper lemmas about plain memory addresses -/

/-- Reading an address in WRAM, echo RAM, unrestricted OAM range above the
prohibited gap, or I/O space goes straight to the backing array. -/
theorem Mmu.read_byte_mem (m : Mmu) (addr : Nat)
    (h1 : 0xC000 ≤ addr) (h2 : addr < 0xFE00 ∨ 0xFEA0 ≤ addr) :
    m.read_byte addr = m.memory addr := by
  have c1 : ¬((0xFE00 ≤ addr ∧ addr ≤ 0xFE9F ∧ m.oam_access = false) ∨
              (0x8000 ≤ addr ∧ addr ≤ 0x9FFF ∧ m.vram_access = false)) := by
    rintro (⟨hx, hy, _⟩ | ⟨hx, hy, _⟩) <;> omega
  have c2 : ¬(0x4000 ≤ addr ∧ addr < 0x8000) := by omega
  have c3 : ¬(0x8000 ≤ addr ∧ addr < 0xA000 ∧ m.is_cgb = true) := by
    rintro ⟨hx, hy, _⟩; omega
  have c4 : ¬(0xA000 ≤ addr ∧ addr < 0xC000) := by omega
  simp only [Mmu.read_byte, if_neg c1, if_neg c2, if_neg c3, if_neg c4]

/-- Writing an address that is in WRAM or in I/O/HRAM space but is none of
the specially-handled registers goes straight to the backing array. -/
theorem Mmu.write_byte_mem (m : Mmu) (addr : Nat) (data : Nat)
    (h1 : 0xC000 ≤ addr) (h2 : addr < 0xE000 ∨ 0xFF00 ≤ addr)
    (h3 : addr ≠ JOYPAD_REGISTER_ADDR) (h4 : addr ≠ DIVIDER_REGISTER_ADDR)
    (h5 : addr ≠ CURRENT_SCANLINE_ADDR) (h6 : addr ≠ 0xFF46)
    (h7 : addr ≠ 0xFF4F) (h8 : addr ≠ TIMER_CONTROL_ADDR)
    (h9 : addr ≠ BACKGROUND_PALETTE_DATA_ADDR)
    (h10 : addr ≠ OBJECT_PALETTE_DATA_ADDR) :
    m.write_byte addr data =
      { m with memory := fun a => if a = addr then data else m.memory a } := by
  have c1 : ¬((0xFE00 ≤ addr ∧ addr ≤ 0xFE9F ∧ m.oam_access = false) ∨
              (0x8000 ≤ addr ∧ addr ≤ 0x9FFF ∧ m.vram_access = false)) := by
    rintro (⟨hx, hy, _⟩ | ⟨hx, hy, _⟩) <;> omega
  have c2 : ¬(addr ≤ 0x7FFF) := by omega
  have c3 : ¬(addr ≤ 0x9FFF) := by omega
  have c4 : ¬(addr ≤ 0xBFFF) := by omega
  have c5 : ¬(0xE000 ≤ addr ∧ addr ≤ 0xFDFF) := by omega
  have c6 : ¬(0xFEA0 ≤ addr ∧ addr ≤ 0xFEFF) := by omega
  have c8 : ¬(addr = DIVIDER_REGISTER_ADDR ∨ addr = CURRENT_SCANLINE_ADDR) := by
    rintro (h | h) <;> [exact h4 h; exact h5 h]
  simp only [Mmu.write_byte, if_neg c1, if_neg c2, if_neg c3, if_neg c4,
    if_neg c5, if_neg c6, if_neg h3, if_neg c8, if_neg h6, if_neg h7,
    if_neg h8, if_neg h9, if_neg h10]

/-! ## Claim C9 -/

/-- C9: For the MBC1 controller, external-RAM reads and writes are not gated
by the RAM-enable flag: for every MBC1 state (whatever `enable_ram` is) and
every in-range address, `write_ram` followed by `read_ram` at the same
address returns the value written; whereas MBC2 and MBC3 drop `write_ram`
calls (leaving the whole controller state unchanged) while their RAM-enable
flag is false. -/
theorem C9_mbc1_ram_ungated_mbc2_mbc3_gated :
    (∀ (m : Mbc1) (addr v : Nat), addr < RAM_BANK_SIZE →
        (m.write_ram addr v).read_ram addr = v) ∧
    (∀ (m : Mbc2) (addr v : Nat), m.enable_ram = false →
        m.write_ram addr v = m) ∧
    (∀ (m : Mbc3) (addr v : Nat), m.enable_ram_and_rtc = false →
        m.write_ram addr v = m) := by
  refine ⟨?_, ?_, ?_⟩
  · intro m addr v _
    simp [Mbc1.write_ram, Mbc1.read_ram]
  · intro m addr v h
    simp [Mbc2.write_ram, h]
  · intro m addr v h
    simp [Mbc3.write_ram, h]

theorem C9_witness :
    (mbc1_0.write_ram 5 0xAB).read_ram 5 = 0xAB ∧
    mbc2_0.write_ram 5 0xAB = mbc2_0 ∧
    mbc3_0.write_ram 5 0xAB = mbc3_0 :=
  ⟨C9_mbc1_ram_ungated_mbc2_mbc3_gated.1 mbc1_0 5 0xAB (by decide),
   C9_mbc1_ram_ungated_mbc2_mbc3_gated.2.1 mbc2_0 5 0xAB rfl,
   C9_mbc1_ram_ungated_mbc2_mbc3_gated.2.2 mbc3_0 5 0xAB rfl⟩

/-! ## Claim C4 -/

/-- C4 counterexample: on a 128-bank MBC1 cartridge whose high bank bits make
the combined bank number 0x20, writing 0x20 (low five bits zero) to the
0x2000–0x3FFF region leaves bank 0x20 selected — not 0x21 as the claim
states — and bank 0x20 is then readable through the 0x4000–0x7FFF window
(the planted byte 0x77 comes back). -/
theorem C4_counterexample :
    (mbc1_bank_0x20.handle_banking 0x2000 0x20).rom_bank = 0x20 ∧
    (mbc1_bank_0x20.handle_banking 0x2000 0x20).read_rom 0 = 0x77 := by
  constructor
  · rfl
  · decide

/-- C4 (amended): for the MBC1 controller, a write of `data` to the
0x2000–0x3FFF region replaces the low 5 bits of the ROM bank number with
`data & 0x1F`, keeping the high bits; the result is bumped to bank 1 only
when the *combined* bank number is 0 (not whenever its low 5 bits are 0).
So writing 0x00 with clear high bank bits selects bank 0x01, but with high
bank bits making the combined number 0x20/0x40/0x60 those banks stay
selected and are readable through the 0x4000–0x7FFF window. -/
theorem C4_mbc1_rom_bank_low_write (m : Mbc1) (addr data : Nat)
    (h1 : 0x2000 ≤ addr) (h2 : addr ≤ 0x3FFF) :
    (m.handle_banking addr data).rom_bank =
      (if (m.rom_bank &&& 0xE0) ||| (data &&& 0x1F) = 0 then 1
       else (m.rom_bank &&& 0xE0) ||| (data &&& 0x1F)) := by
  have c1 : ¬(addr ≤ 0x1FFF) := by omega
  simp only [Mbc1.handle_banking, if_neg c1, if_pos h2]
  split
  · next h => simp [h]
  · rfl

theorem C4_witness :
    (mbc1_0.handle_banking 0x2000 0x00).rom_bank = 1 := by
  have h := C4_mbc1_rom_bank_low_write mbc1_0 0x2000 0x00 (by decide) (by decide)
  simpa using h

/-! ## Claim C6 -/

/-- C6: for every MMU state, reads of OAM addresses (0xFE00–0xFE9F) while
OAM access is restricted (as the PPU does for modes 2 and 3), and reads of
VRAM addresses (0x8000–0x9FFF) while VRAM access is restricted (as the PPU
does for mode 3), return 0xFF; and writes to those addresses leave the whole
MMU state unchanged. -/
theorem C6_restricted_regions_read_ff_write_dropped (m : Mmu) (addr v : Nat)
    (h : (0xFE00 ≤ addr ∧ addr ≤ 0xFE9F ∧ m.oam_access = false) ∨
         (0x8000 ≤ addr ∧ addr ≤ 0x9FFF ∧ m.vram_access = false)) :
    m.read_byte addr = 0xFF ∧ m.write_byte addr v = m := by
  constructor
  · unfold Mmu.read_byte
    rw [if_pos h]
  · unfold Mmu.write_byte
    rw [if_pos h]

theorem C6_witness :
    (mmu_restricted.read_byte 0xFE10 = 0xFF ∧
     mmu_restricted.write_byte 0xFE10 0x12 = mmu_restricted) ∧
    (mmu_restricted.read_byte 0x8000 = 0xFF ∧
     mmu_restricted.write_byte 0x8000 0x12 = mmu_restricted) :=
  ⟨C6_restricted_regions_read_ff_write_dropped mmu_restricted 0xFE10 0x12
      (Or.inl ⟨by decide, by decide, rfl⟩),
   C6_restricted_regions_read_ff_write_dropped mmu_restricted 0x8000 0x12
      (Or.inr ⟨by decide, by decide, rfl⟩)⟩

/-! ## Bit-twiddling helper lemmas -/

theorem is_bit_set_eq_testBit (x p : Nat) : is_bit_set x p = x.testBit p := by
  unfold is_bit_set
  rw [Nat.one_shiftLeft, Nat.and_two_pow]
  cases h : x.testBit p <;> simp [h, Nat.pos_pow_of_pos]

theorem is_bit_set_set_bit_self (x p : Nat) :
    is_bit_set (set_bit x p) p = true := by
  rw [is_bit_set_eq_testBit]
  unfold set_bit
  rw [Nat.one_shiftLeft]
  simp [Nat.testBit_or, Nat.testBit_two_pow_self]

theorem is_bit_set_set_bit_ne (x p q : Nat) (h : p ≠ q) :
    is_bit_set (set_bit x q) p = is_bit_set x p := by
  rw [is_bit_set_eq_testBit, is_bit_set_eq_testBit]
  unfold set_bit
  rw [Nat.one_shiftLeft]
  simp [Nat.testBit_or, Nat.testBit_two_pow]
  intro h'
  exact absurd h'.symm h

/-! ## Timer loop lemmas -/

theorem timer_tick_loop_fst (freq : Nat) (hf : 0 < freq) :
    ∀ n (t : Timer) (m : Mmu), t.timer_counter = n →
      (timer_tick_loop freq t m).1 =
        { t with timer_counter := t.timer_counter % freq } := by
  intro n
  induction n using Nat.strong_induction_on with
  | _ n ih =>
    intro t m hn
    rw [timer_tick_loop]
    split
    · next h =>
      rw [ih (t.timer_counter - freq) (by omega) _ _ rfl]
      have : (t.timer_counter - freq) % freq = t.timer_counter % freq :=
        (Nat.mod_eq_sub_mod h.2).symm
      simp [this]
    · next h =>
      have : t.timer_counter % freq = t.timer_counter :=
        Nat.mod_eq_of_lt (by omega)
      simp [this]

theorem timer_tick_loop_below (freq : Nat) (t : Timer) (m : Mmu)
    (h : t.timer_counter < freq) :
    timer_tick_loop freq t m = (t, m) := by
  rw [timer_tick_loop]
  rw [dif_neg (by omega)]

theorem timer_tick_loop_single (freq : Nat) (hf : 0 < freq) (t : Timer)
    (m : Mmu) (h1 : freq ≤ t.timer_counter) (h2 : t.timer_counter < 2 * freq) :
    (timer_tick_loop freq t m).2 =
      (let m1 := m.increment_timer_register
       if m1.read_byte TIMER_ADDR = 0 then
         let mr := request_interrupt m1 .TIMER
         mr.write_byte TIMER_ADDR (mr.read_byte TIMER_MODULATOR_ADDR)
       else m1) := by
  rw [timer_tick_loop]
  rw [dif_pos ⟨hf, h1⟩]
  rw [timer_tick_loop_below freq _ _ (by simp; omega)]

/-! ## Divider-stage preservation lemmas -/

theorem update_divider_fst_timer_counter (t : Timer) (m : Mmu) (cycles : Nat) :
    (t.update_divider_register m cycles).1.timer_counter = t.timer_counter := by
  unfold Timer.update_divider_register
  dsimp only
  split <;> rfl

theorem update_divider_mem_ne (t : Timer) (m : Mmu) (cycles a : Nat)
    (h : a ≠ DIVIDER_REGISTER_ADDR) :
    (t.update_divider_register m cycles).2.memory a = m.memory a := by
  unfold Timer.update_divider_register
  dsimp only
  split
  · simp [Mmu.increment_divider_register, h]
  · rfl

theorem update_divider_freq_flag (t : Timer) (m : Mmu) (cycles : Nat) :
    (t.update_divider_register m cycles).2.timer_frequency_changed =
      m.timer_frequency_changed := by
  unfold Timer.update_divider_register
  dsimp only
  split <;> rfl

theorem update_divider_oam (t : Timer) (m : Mmu) (cycles : Nat) :
    (t.update_divider_register m cycles).2.oam_access = m.oam_access := by
  unfold Timer.update_divider_register
  dsimp only
  split <;> rfl

theorem update_divider_vram (t : Timer) (m : Mmu) (cycles : Nat) :
    (t.update_divider_register m cycles).2.vram_access = m.vram_access := by
  unfold Timer.update_divider_register
  dsimp only
  split <;> rfl

/-- With no pending TAC-write flag, `Timer::update` reduces to the divider
stage followed by the (enabled-gated) tick loop. -/
theorem Timer.update_eq (t : Timer) (m : Mmu) (cycles : Nat)
    (hch : m.timer_frequency_changed = false) :
    t.update m cycles =
      (if Timer.is_timer_enabled (t.update_divider_register m cycles).2 then
         timer_tick_loop
           (Timer.get_timer_frequency (t.update_divider_register m cycles).2)
           { (t.update_divider_register m cycles).1 with
             timer_counter :=
               (t.update_divider_register m cycles).1.timer_counter + cycles }
           (t.update_divider_register m cycles).2
       else (t.update_divider_register m cycles)) := by
  have hflag : (t.update_divider_register m cycles).2.is_timer_frequency_changed
      = false := by
    rw [Mmu.is_timer_frequency_changed, update_divider_freq_flag, hch]
  unfold Timer.update
  rcases hp : t.update_divider_register m cycles with ⟨t1, m1⟩
  rw [hp] at hflag
  simp only [hflag, Bool.false_eq_true, if_false]

/-! ## Claim C7 -/

/-- C7: with no TAC write pending (`timer_frequency_changed = false`):
(i) the prescaler threshold chosen by TAC bits 1–0 is 1024/16/64/256
T-cycles per TIMA tick for values 0/1/2/3; (ii) when TAC bit 2 is clear the
timer prescaler does not accumulate and TIMA and IF are untouched; (iii)
when TAC bit 2 is set the prescaler accumulates `cycles` and keeps its
remainder modulo the threshold (ticking TIMA once per threshold-many
T-cycles); (iv) a tick that does not overflow increments TIMA and does not
touch IF; (v) a tick that increments TIMA from 0xFF to 0x00 reloads TIMA
from TMA (0xFF06) and sets IF bit 2 (Timer interrupt) in the same update. -/
theorem C7_timer_prescaler_tick_overflow (t : Timer) (m : Mmu) (cycles : Nat)
    (hch : m.timer_frequency_changed = false) :
    (Timer.get_timer_frequency m =
       (if m.read_byte TIMER_CONTROL_ADDR &&& 0x3 = 0 then 1024
        else if m.read_byte TIMER_CONTROL_ADDR &&& 0x3 = 1 then 16
        else if m.read_byte TIMER_CONTROL_ADDR &&& 0x3 = 2 then 64
        else 256)) ∧
    (is_bit_set (m.read_byte TIMER_CONTROL_ADDR) 2 = false →
       (t.update m cycles).1.timer_counter = t.timer_counter ∧
       (t.update m cycles).2.memory TIMER_ADDR = m.memory TIMER_ADDR ∧
       (t.update m cycles).2.memory INTERRUPT_FLAG_ADDR
         = m.memory INTERRUPT_FLAG_ADDR) ∧
    (is_bit_set (m.read_byte TIMER_CONTROL_ADDR) 2 = true →
       (t.update m cycles).1.timer_counter
         = (t.timer_counter + cycles) % Timer.get_timer_frequency m) ∧
    (is_bit_set (m.read_byte TIMER_CONTROL_ADDR) 2 = true →
     Timer.get_timer_frequency m ≤ t.timer_counter + cycles →
     t.timer_counter + cycles < 2 * Timer.get_timer_frequency m →
     m.memory TIMER_ADDR + 1 < 256 →
       (t.update m cycles).2.memory TIMER_ADDR = m.memory TIMER_ADDR + 1 ∧
       (t.update m cycles).2.memory INTERRUPT_FLAG_ADDR
         = m.memory INTERRUPT_FLAG_ADDR) ∧
    (is_bit_set (m.read_byte TIMER_CONTROL_ADDR) 2 = true →
     Timer.get_timer_frequency m ≤ t.timer_counter + cycles →
     t.timer_counter + cycles < 2 * Timer.get_timer_frequency m →
     m.memory TIMER_ADDR = 0xFF →
       (t.update m cycles).2.memory TIMER_ADDR
         = m.memory TIMER_MODULATOR_ADDR ∧
       is_bit_set ((t.update m cycles).2.memory INTERRUPT_FLAG_ADDR) 2
         = true) := by
  have hmem5 : (t.update_divider_register m cycles).2.memory TIMER_ADDR
      = m.memory TIMER_ADDR := update_divider_mem_ne t m cycles _ (by decide)
  have hmem6 : (t.update_divider_register m cycles).2.memory TIMER_MODULATOR_ADDR
      = m.memory TIMER_MODULATOR_ADDR :=
    update_divider_mem_ne t m cycles _ (by decide)
  have hmemF : (t.update_divider_register m cycles).2.memory INTERRUPT_FLAG_ADDR
      = m.memory INTERRUPT_FLAG_ADDR :=
    update_divider_mem_ne t m cycles _ (by decide)
  have hmem7 : (t.update_divider_register m cycles).2.memory TIMER_CONTROL_ADDR
      = m.memory TIMER_CONTROL_ADDR :=
    update_divider_mem_ne t m cycles _ (by decide)
  have hrb7 : (t.update_divider_register m cycles).2.read_byte TIMER_CONTROL_ADDR
      = m.read_byte TIMER_CONTROL_ADDR := by
    rw [Mmu.read_byte_mem _ _ (by decide) (Or.inr (by decide)),
        Mmu.read_byte_mem _ _ (by decide) (Or.inr (by decide)), hmem7]
  have hfreq : Timer.get_timer_frequency (t.update_divider_register m cycles).2
      = Timer.get_timer_frequency m := by
    unfold Timer.get_timer_frequency
    rw [hrb7]
  have henab : Timer.is_timer_enabled (t.update_divider_register m cycles).2
      = is_bit_set (m.read_byte TIMER_CONTROL_ADDR) 2 := by
    unfold Timer.is_timer_enabled
    rw [hrb7]
  have hfreq_pos : 0 < Timer.get_timer_frequency m := by
    unfold Timer.get_timer_frequency CLOCK_SPEED
    dsimp only
    split_ifs <;> norm_num
  have htc : (t.update_divider_register m cycles).1.timer_counter
      = t.timer_counter := update_divider_fst_timer_counter t m cycles
  have hupd := Timer.update_eq t m cycles hch
  refine ⟨?_, ?_, ?_, ?_, ?_⟩
  · unfold Timer.get_timer_frequency CLOCK_SPEED
    dsimp only
  · intro hdis
    rw [hupd, henab, hdis, if_neg (by simp)]
    exact ⟨htc, hmem5, hmemF⟩
  · intro hen
    rw [hupd, henab, hen, if_pos rfl]
    rw [timer_tick_loop_fst _ (by rw [hfreq]; exact hfreq_pos) _ _ _ rfl]
    simp [htc, hfreq]
  · intro hen h1 h2 h3
    rw [hupd, henab, hen, if_pos rfl]
    rw [timer_tick_loop_single _ (by rw [hfreq]; exact hfreq_pos) _ _
          (by simp [htc, hfreq]; omega) (by simp [htc, hfreq]; omega)]
    have hread5 : ((t.update_divider_register m cycles).2.increment_timer_register).read_byte
        TIMER_ADDR = (m.memory TIMER_ADDR + 1) % 256 := by
      rw [Mmu.read_byte_mem _ _ (by decide) (Or.inr (by decide))]
      simp [Mmu.increment_timer_register, hmem5]
    simp only [hread5]
    rw [if_neg (by omega)]
    have hneF5 : INTERRUPT_FLAG_ADDR ≠ TIMER_ADDR := by decide
    constructor
    · simp [Mmu.increment_timer_register, hmem5]
      omega
    · simp [Mmu.increment_timer_register, hneF5, hmemF]
  · intro hen h1 h2 htima
    rw [hupd, henab, hen, if_pos rfl]
    rw [timer_tick_loop_single _ (by rw [hfreq]; exact hfreq_pos) _ _
          (by simp [htc, hfreq]; omega) (by simp [htc, hfreq]; omega)]
    have hread5 : ((t.update_divider_register m cycles).2.increment_timer_register).read_byte
        TIMER_ADDR = (m.memory TIMER_ADDR + 1) % 256 := by
      rw [Mmu.read_byte_mem _ _ (by decide) (Or.inr (by decide))]
      simp [Mmu.increment_timer_register, hmem5]
    simp only [hread5, htima]
    rw [if_pos (by norm_num)]
    -- the request-interrupt / reload branch
    have hneF5 : INTERRUPT_FLAG_ADDR ≠ TIMER_ADDR := by decide
    have hne65 : TIMER_MODULATOR_ADDR ≠ TIMER_ADDR := by decide
    have hne6F : TIMER_MODULATOR_ADDR ≠ INTERRUPT_FLAG_ADDR := by decide
    set m1 := (t.update_divider_register m cycles).2.increment_timer_register with hm1
    have hm1F : m1.memory INTERRUPT_FLAG_ADDR = m.memory INTERRUPT_FLAG_ADDR := by
      rw [hm1]; simp [Mmu.increment_timer_register, hneF5, hmemF]
    have hm16 : m1.memory TIMER_MODULATOR_ADDR = m.memory TIMER_MODULATOR_ADDR := by
      rw [hm1]; simp [Mmu.increment_timer_register, hne65, hmem6]
    have hreq : request_interrupt m1 .TIMER =
        { m1 with memory := fun a =>
            if a = INTERRUPT_FLAG_ADDR then
              set_bit (m.memory INTERRUPT_FLAG_ADDR) 2
            else m1.memory a } := by
      unfold request_interrupt
      rw [Mmu.read_byte_mem _ _ (by decide) (Or.inr (by decide)), hm1F]
      rw [Mmu.write_byte_mem _ _ _ (by decide) (Or.inr (by decide)) (by decide)
            (by decide) (by decide) (by decide) (by decide) (by decide)
            (by decide) (by decide)]
      rfl
    have hr6 :
        ({ m1 with memory := fun a =>
              if a = INTERRUPT_FLAG_ADDR then
                set_bit (m.memory INTERRUPT_FLAG_ADDR) 2
              else m1.memory a } : Mmu).read_byte TIMER_MODULATOR_ADDR
          = m.memory TIMER_MODULATOR_ADDR := by
      rw [Mmu.read_byte_mem _ _ (by decide) (Or.inr (by decide))]
      simp [hne6F, hm16]
    rw [hreq, hr6]
    rw [Mmu.write_byte_mem _ _ _ (by decide) (Or.inr (by decide)) (by decide)
          (by decide) (by decide) (by decide) (by decide) (by decide)
          (by decide) (by decide)]
    constructor
    · simp
    · simp [hneF5, is_bit_set_set_bit_self]

theorem C7_witness :
    ((Timer.mk 0 0).update mmu_timer 16).2.memory TIMER_ADDR = 0x42 ∧
    is_bit_set (((Timer.mk 0 0).update mmu_timer 16).2.memory
      INTERRUPT_FLAG_ADDR) 2 = true := by
  have h := (C7_timer_prescaler_tick_overflow (Timer.mk 0 0) mmu_timer 16 rfl).2.2.2.2
      (by decide) (by decide) (by decide) (by decide)
  exact ⟨h.1.trans (by decide), h.2⟩

/-! ## CPU helper lemmas -/

theorem sync_cycles_program_counter (c : Cpu) (x : Nat) :
    (c.sync_cycles x).program_counter = c.program_counter := rfl

theorem sync_cycles_halted (c : Cpu) (x : Nat) :
    (c.sync_cycles x).halted = c.halted := rfl

theorem sync_cycles_interrupts_enabled (c : Cpu) (x : Nat) :
    (c.sync_cycles x).interrupts_enabled = c.interrupts_enabled := rfl

theorem sync_cycles_will_enable (c : Cpu) (x : Nat) :
    (c.sync_cycles x).will_enable_interrupts = c.will_enable_interrupts := rfl

theorem sync_cycles_will_disable (c : Cpu) (x : Nat) :
    (c.sync_cycles x).will_disable_interrupts = c.will_disable_interrupts := rfl

theorem sync_cycles_last_op (c : Cpu) (x : Nat) :
    (c.sync_cycles x).last_op = c.last_op := rfl

/-! ## Claim C3 -/

/-- C3 counterexample: from the concrete state `cpu0` with IME = 0, running
EI and then DI leaves IME = 1 after the DI instruction completes (the
pending enable from EI lands during DI; the claim says IME would be 0). -/
theorem C3_counterexample :
    ((cpu0.execute_op .EI).bind fun p =>
        (p.1.execute_op .DI).map fun q => q.1.interrupts_enabled)
      = some true := by
  decide

/-! Toggle-latch lemmas: `toggle_interrupts_enabled` is the identity unless
the previous instruction was EI/DI with the matching latch armed. -/

theorem toggle_noop (c : Cpu) (h2 : c.will_disable_interrupts = false)
    (h3 : c.last_op ≠ some Operation.EI) :
    c.toggle_interrupts_enabled = c := by
  unfold Cpu.toggle_interrupts_enabled
  rcases hl : c.last_op with _ | op
  · rfl
  · dsimp only
    rw [if_neg, if_neg]
    · rintro ⟨he, -⟩
      exact h3 (by rw [hl, he])
    · rintro ⟨-, hw⟩
      rw [h2] at hw
      cases hw

theorem toggle_fire_EI (c : Cpu) (hl : c.last_op = some Operation.EI)
    (hwe : c.will_enable_interrupts = true) :
    c.toggle_interrupts_enabled =
      { c with will_enable_interrupts := false, interrupts_enabled := true } := by
  unfold Cpu.toggle_interrupts_enabled
  rw [hl]
  dsimp only
  rw [if_neg, if_pos ⟨rfl, hwe⟩]
  rintro ⟨he, -⟩
  cases he

theorem toggle_fire_DI (c : Cpu) (hl : c.last_op = some Operation.DI)
    (hwd : c.will_disable_interrupts = true) :
    c.toggle_interrupts_enabled =
      { c with will_disable_interrupts := false, interrupts_enabled := false } := by
  unfold Cpu.toggle_interrupts_enabled
  rw [hl]
  dsimp only
  rw [if_pos ⟨rfl, hwd⟩]

/-- Executing EI (with no DI latch armed and the previous instruction not
EI): the enable latch is armed but IME is not yet changed. -/
theorem execute_op_EI_arms (c : Cpu) (h2 : c.will_disable_interrupts = false)
    (h3 : c.last_op ≠ some Operation.EI) :
    ∃ c1, c.execute_op .EI = some (c1, 4) ∧
      c1.interrupts_enabled = c.interrupts_enabled ∧
      c1.will_enable_interrupts = true ∧
      c1.will_disable_interrupts = false ∧
      c1.last_op = some Operation.EI := by
  have key := toggle_noop
      (Cpu.do_enable_interrupts
        { c with
          cycle_tracker := 0
          program_counter := (c.program_counter + 1) % 0x10000 })
      (by exact h2) (by exact h3)
  unfold Cpu.execute_op
  dsimp only
  rw [key]
  exact ⟨_, rfl, rfl, rfl, h2, rfl⟩

/-- Executing DI right after EI: the pending enable fires (IME becomes 1)
while the disable latch is armed. -/
theorem execute_op_DI_after_EI (c : Cpu) (hl : c.last_op = some Operation.EI)
    (hwe : c.will_enable_interrupts = true) :
    ∃ c2, c.execute_op .DI = some (c2, 4) ∧
      c2.interrupts_enabled = true ∧
      c2.will_disable_interrupts = true ∧
      c2.will_enable_interrupts = false ∧
      c2.last_op = some Operation.DI := by
  have key := toggle_fire_EI
      (Cpu.do_disable_interrupts
        { c with
          cycle_tracker := 0
          program_counter := (c.program_counter + 1) % 0x10000 })
      (by exact hl) (by exact hwe)
  unfold Cpu.execute_op
  dsimp only
  rw [key]
  exact ⟨_, rfl, rfl, rfl, rfl, rfl⟩

theorem toggle_ime_after_EI (c : Cpu) (hl : c.last_op = some Operation.EI)
    (hwe : c.will_enable_interrupts = true) :
    c.toggle_interrupts_enabled.interrupts_enabled = true := by
  rw [toggle_fire_EI c hl hwe]

theorem toggle_ime_after_DI (c : Cpu) (hl : c.last_op = some Operation.DI)
    (hwd : c.will_disable_interrupts = true) :
    c.toggle_interrupts_enabled.interrupts_enabled = false := by
  rw [toggle_fire_DI c hl hwd]

/-- Any modelled instruction executed right after EI ends with IME = 1. -/
theorem execute_op_after_EI_sets_ime (c : Cpu) (op : Operation) (d : Cpu)
    (cyc : Nat) (hl : c.last_op = some Operation.EI)
    (hwe : c.will_enable_interrupts = true)
    (hex : c.execute_op op = some (d, cyc)) :
    d.interrupts_enabled = true := by
  unfold Cpu.execute_op at hex
  cases op <;> dsimp only at hex <;> try exact Option.noConfusion hex
  all_goals
    injection hex with h'
  all_goals
    injection h' with hA hcyc
  all_goals
    subst hA
  all_goals
    rw [sync_cycles_interrupts_enabled]
  all_goals
    first
      | exact toggle_ime_after_EI _ (by exact hl) (by exact hwe)
      | exact toggle_ime_after_EI _ (by exact hl) (by exact rfl)

/-- Any modelled instruction executed right after DI ends with IME = 0. -/
theorem execute_op_after_DI_clears_ime (c : Cpu) (op : Operation) (d : Cpu)
    (cyc : Nat) (hl : c.last_op = some Operation.DI)
    (hwd : c.will_disable_interrupts = true)
    (hex : c.execute_op op = some (d, cyc)) :
    d.interrupts_enabled = false := by
  unfold Cpu.execute_op at hex
  cases op <;> dsimp only at hex <;> try exact Option.noConfusion hex
  all_goals
    injection hex with h'
  all_goals
    injection h' with hA hcyc
  all_goals
    subst hA
  all_goals
    rw [sync_cycles_interrupts_enabled]
  all_goals
    first
      | exact toggle_ime_after_DI _ (by exact hl) (by exact hwd)
      | exact toggle_ime_after_DI _ (by exact hl) (by exact rfl)

theorem execute_op_NOP_total (c : Cpu) :
    ∃ c3, c.execute_op .NOP = some (c3, 4) :=
  ⟨_, rfl⟩

/-- C3 (amended): starting from IME = 0 with neither latch armed and the
previous instruction not EI, after the EI instruction itself IME is still 0;
IME becomes 1 exactly once the *next* instruction completes — whichever it
is; in particular after `EI; DI` IME is 1 (not 0: the DI latch, like the EI
latch, only fires at the end of the following instruction), and only after
one more instruction (`EI; DI; NOP`) is IME 0 again. -/
theorem C3_ei_di_delay (c : Cpu)
    (h0 : c.interrupts_enabled = false)
    (_h1 : c.will_enable_interrupts = false)
    (h2 : c.will_disable_interrupts = false)
    (h3 : c.last_op ≠ some Operation.EI) :
    ∃ c1 c2 c3,
      c.execute_op .EI = some (c1, 4) ∧
      c1.interrupts_enabled = false ∧
      (∀ (op : Operation) (d : Cpu) (cyc : Nat),
        c1.execute_op op = some (d, cyc) → d.interrupts_enabled = true) ∧
      c1.execute_op .DI = some (c2, 4) ∧
      c2.interrupts_enabled = true ∧
      c2.execute_op .NOP = some (c3, 4) ∧
      c3.interrupts_enabled = false := by
  obtain ⟨c1, he1, hime1, hwe1, hwd1, hlast1⟩ := execute_op_EI_arms c h2 h3
  obtain ⟨c2, he2, hime2, hwd2, hwe2, hlast2⟩ := execute_op_DI_after_EI c1 hlast1 hwe1
  obtain ⟨c3, he3⟩ := execute_op_NOP_total c2
  refine ⟨c1, c2, c3, he1, hime1.trans h0, ?_, he2, hime2, he3, ?_⟩
  · intro op d cyc hex
    exact execute_op_after_EI_sets_ime c1 op d cyc hlast1 hwe1 hex
  · exact execute_op_after_DI_clears_ime c2 .NOP c3 4 hlast2 hwd2 he3

theorem C3_witness :
    ∃ c1 c2 c3,
      cpu0.execute_op .EI = some (c1, 4) ∧
      c1.interrupts_enabled = false ∧
      (∀ (op : Operation) (d : Cpu) (cyc : Nat),
        c1.execute_op op = some (d, cyc) → d.interrupts_enabled = true) ∧
      c1.execute_op .DI = some (c2, 4) ∧
      c2.interrupts_enabled = true ∧
      c2.execute_op .NOP = some (c3, 4) ∧
      c3.interrupts_enabled = false :=
  C3_ei_di_delay cpu0 rfl rfl rfl (by decide)

/-! ## Claim C8 -/

/-- A single `execute` call on a halted CPU (with a recognized opcode byte
under PC): it returns 4 T-cycles, and neither PC nor the halted flag
changes. -/
theorem execute_halted_step (c : Cpu) (h : c.halted = true)
    (hop : opcode_recognized (c.mmu.read_byte c.program_counter) = true) :
    ∃ c1, c.execute_halted = some (c1, 4) ∧
      c1.program_counter = c.program_counter ∧ c1.halted = true := by
  unfold Cpu.execute_halted Cpu.read_memory
  dsimp only
  rw [hop, h]
  rw [if_neg (by simp), if_pos rfl]
  exact ⟨_, rfl, rfl, rfl⟩

/-- C8: for every halted CPU state whose opcode byte under PC is recognized,
`execute` returns 4 T-cycles and leaves PC unchanged and the CPU halted;
when no enabled interrupt is pending afterwards, `handle_interrupts` is the
identity, and a second `execute` call again returns 4 with the same PC — a
halted CPU never blocks the frame pump. -/
theorem C8_halted_steps_return_4 (c : Cpu) (h : c.halted = true)
    (hop : opcode_recognized (c.mmu.read_byte c.program_counter) = true) :
    ∃ c1, c.execute_halted = some (c1, 4) ∧
      c1.program_counter = c.program_counter ∧
      c1.halted = true ∧
      (get_servicable_interrupt c1.mmu = none → c1.handle_interrupts = c1) ∧
      (opcode_recognized (c1.mmu.read_byte c1.program_counter) = true →
        ∃ c2, c1.execute_halted = some (c2, 4) ∧
          c2.program_counter = c.program_counter ∧ c2.halted = true) := by
  obtain ⟨c1, he, hpc, hh⟩ := execute_halted_step c h hop
  refine ⟨c1, he, hpc, hh, ?_, ?_⟩
  · intro hnone
    unfold Cpu.handle_interrupts
    rw [hnone]
  · intro hop2
    obtain ⟨c2, he2, hpc2, hh2⟩ := execute_halted_step c1 hh hop2
    exact ⟨c2, he2, hpc2.trans hpc, hh2⟩

theorem C8_witness :
    ∃ c1, cpu_halt.execute_halted = some (c1, 4) ∧
      c1.program_counter = cpu_halt.program_counter ∧
      c1.halted = true ∧
      (get_servicable_interrupt c1.mmu = none → c1.handle_interrupts = c1) ∧
      (opcode_recognized (c1.mmu.read_byte c1.program_counter) = true →
        ∃ c2, c1.execute_halted = some (c2, 4) ∧
          c2.program_counter = cpu_halt.program_counter ∧ c2.halted = true) :=
  C8_halted_steps_return_4 cpu_halt rfl (by decide)

/-! ## PPU helper lemmas -/

theorem set_lcd_mode_eq (m : Mmu) (mode : LcdMode) :
    Ppu.set_lcd_mode m mode =
      { m with memory := fun a =>
          if a = LCD_STATUS_ADDR then
            (m.memory LCD_STATUS_ADDR &&& 0b11111100) ^^^ mode.toNat
          else m.memory a } := by
  unfold Ppu.set_lcd_mode
  rw [Mmu.read_byte_mem _ _ (by decide) (Or.inr (by decide))]
  rw [Mmu.write_byte_mem _ _ _ (by decide) (Or.inr (by decide)) (by decide)
        (by decide) (by decide) (by decide) (by decide) (by decide)
        (by decide) (by decide)]

theorem update_coincidence_eq (m : Mmu) (val : Bool) :
    Ppu.update_coincidence_flag m val =
      { m with memory := fun a =>
          if a = LCD_STATUS_ADDR then
            (if val then set_bit (m.memory LCD_STATUS_ADDR) 2
             else reset_bit (m.memory LCD_STATUS_ADDR) 2)
          else m.memory a } := by
  unfold Ppu.update_coincidence_flag
  rw [Mmu.read_byte_mem _ _ (by decide) (Or.inr (by decide))]
  rw [Mmu.write_byte_mem _ _ _ (by decide) (Or.inr (by decide)) (by decide)
        (by decide) (by decide) (by decide) (by decide) (by decide)
        (by decide) (by decide)]

theorem request_interrupt_eq (m : Mmu) (i : Interrupt) :
    request_interrupt m i =
      { m with memory := fun a =>
          if a = INTERRUPT_FLAG_ADDR then
            set_bit (m.memory INTERRUPT_FLAG_ADDR) (interrupt_position i)
          else m.memory a } := by
  unfold request_interrupt
  rw [Mmu.read_byte_mem _ _ (by decide) (Or.inr (by decide))]
  rw [Mmu.write_byte_mem _ _ _ (by decide) (Or.inr (by decide)) (by decide)
        (by decide) (by decide) (by decide) (by decide) (by decide)
        (by decide) (by decide)]

/-- With the LCD enabled, `update_lcd_status` keeps the scanline counter,
LY, LCDC and IF bit 0 (it only writes STAT and, for STAT interrupts, IF
bit 1), and does not change whether the LCD is enabled. -/
theorem update_lcd_status_enabled (p : Ppu) (m : Mmu)
    (hlcd : Ppu.is_lcd_enabled m = true) :
    (p.update_lcd_status m).1 = p ∧
    (p.update_lcd_status m).2.memory CURRENT_SCANLINE_ADDR
      = m.memory CURRENT_SCANLINE_ADDR ∧
    Ppu.is_lcd_enabled (p.update_lcd_status m).2 = true ∧
    is_bit_set ((p.update_lcd_status m).2.memory INTERRUPT_FLAG_ADDR) 0
      = is_bit_set (m.memory INTERRUPT_FLAG_ADDR) 0 := by
  have hrb : ∀ m' : Mmu, Ppu.is_lcd_enabled m'
      = is_bit_set (m'.memory LCD_CONTROL_ADDR) 7 := by
    intro m'
    unfold Ppu.is_lcd_enabled
    rw [Mmu.read_byte_mem _ _ (by decide) (Or.inr (by decide))]
  unfold Ppu.update_lcd_status
  rw [if_neg (by simp [hlcd])]
  dsimp only
  rw [hrb] at hlcd
  split_ifs <;>
    simp_all [set_lcd_mode_eq, update_coincidence_eq, request_interrupt_eq,
      Mmu.open_oam_access, Mmu.open_vram_access, Mmu.restrict_oam_access,
      Mmu.restrict_vram_access, interrupt_position, hrb,
      is_bit_set_set_bit_ne, CURRENT_SCANLINE_ADDR, LCD_STATUS_ADDR,
      INTERRUPT_FLAG_ADDR, LCD_CONTROL_ADDR]

/-- One `update_graphics` call with the LCD enabled in which the scanline
counter expires: the counter resets to 456, LY advances (after a reset to 0
first whenever it exceeded 153), and IF bit 0 is set exactly when the
expiring scanline read back as 144. -/
theorem update_graphics_rollover (p : Ppu) (m : Mmu) (cycles : Nat)
    (hlcd : Ppu.is_lcd_enabled m = true)
    (hroll : p.scanline_counter - (cycles : Int) ≤ 0) :
    (p.update_graphics m cycles).1.scanline_counter = CYCLES_PER_SCANLINE ∧
    (p.update_graphics m cycles).2.memory CURRENT_SCANLINE_ADDR
      = (if m.memory CURRENT_SCANLINE_ADDR > MAX_SCANLINE_VALUE then 1
         else (m.memory CURRENT_SCANLINE_ADDR + 1) % 256) ∧
    is_bit_set ((p.update_graphics m cycles).2.memory INTERRUPT_FLAG_ADDR) 0
      = (if m.memory CURRENT_SCANLINE_ADDR = 144 then true
         else is_bit_set (m.memory INTERRUPT_FLAG_ADDR) 0) := by
  obtain ⟨hp1, hly, hlcd1, hif0⟩ := update_lcd_status_enabled p m hlcd
  have hread44 : (p.update_lcd_status m).2.read_byte CURRENT_SCANLINE_ADDR
      = m.memory CURRENT_SCANLINE_ADDR := by
    rw [Mmu.read_byte_mem _ _ (by decide) (Or.inr (by decide)), hly]
  unfold Ppu.update_graphics
  rcases hst : p.update_lcd_status m with ⟨p1, m1⟩
  rw [hst] at hp1 hly hlcd1 hif0 hread44
  dsimp only at hp1 hly hlcd1 hif0 hread44 ⊢
  subst hp1
  rw [hlcd1, if_pos rfl, hread44]
  rw [if_pos (by exact hroll)]
  dsimp only
  have hne0F : CURRENT_SCANLINE_ADDR ≠ INTERRUPT_FLAG_ADDR := by decide
  have hneF0 : INTERRUPT_FLAG_ADDR ≠ CURRENT_SCANLINE_ADDR := by decide
  split_ifs with h144 hmax <;>
    simp_all [request_interrupt_eq, Mmu.update_scanline, Mmu.reset_scanline,
      interrupt_position, is_bit_set_set_bit_self, MAX_SCANLINE_VALUE,
      CURRENT_SCANLINE_ADDR, INTERRUPT_FLAG_ADDR]

/-! ## Claim C10 -/

/-- C10: with the LCD enabled, when the scanline counter rolls over while LY
reads a value greater than 153 (i.e. 154 in normal operation), LY is reset
to 0 and then immediately incremented within the same update, so the LY
value observable after that rollover is 1; LY wraps through 153, 154, 1 and
is never observed as 0 at a rollover boundary. -/
theorem C10_ly_wraps_154_to_1 (p : Ppu) (m : Mmu) (cycles : Nat)
    (hlcd : Ppu.is_lcd_enabled m = true)
    (hroll : p.scanline_counter - (cycles : Int) ≤ 0) :
    (m.memory CURRENT_SCANLINE_ADDR = 153 →
       (p.update_graphics m cycles).2.memory CURRENT_SCANLINE_ADDR = 154) ∧
    (m.memory CURRENT_SCANLINE_ADDR = 154 →
       (p.update_graphics m cycles).2.memory CURRENT_SCANLINE_ADDR = 1) ∧
    (p.update_graphics m cycles).2.memory CURRENT_SCANLINE_ADDR ≠ 0 := by
  obtain ⟨-, hly, -⟩ := update_graphics_rollover p m cycles hlcd hroll
  refine ⟨?_, ?_, ?_⟩
  · intro h
    rw [hly, h]
    norm_num [MAX_SCANLINE_VALUE]
  · intro h
    rw [hly, h]
    norm_num [MAX_SCANLINE_VALUE]
  · rw [hly]
    split_ifs with h
    · norm_num
    · simp only [MAX_SCANLINE_VALUE, gt_iff_lt, not_lt] at h
      omega

theorem C10_witness :
    (mmu_ly154.memory CURRENT_SCANLINE_ADDR = 153 →
       ((Ppu.mk 4).update_graphics mmu_ly154 4).2.memory CURRENT_SCANLINE_ADDR
         = 154) ∧
    (mmu_ly154.memory CURRENT_SCANLINE_ADDR = 154 →
       ((Ppu.mk 4).update_graphics mmu_ly154 4).2.memory CURRENT_SCANLINE_ADDR
         = 1) ∧
    ((Ppu.mk 4).update_graphics mmu_ly154 4).2.memory CURRENT_SCANLINE_ADDR
      ≠ 0 :=
  C10_ly_wraps_154_to_1 (Ppu.mk 4) mmu_ly154 4 (by decide) (by decide)

/-! ## Claim C5 -/

/-- C5 counterexample: with the LCD enabled and LY = 143, the rollover that
takes LY to 144 does NOT set IF bit 0 (the claim states that transition is
exactly where the VBlank request is raised). -/
theorem C5_counterexample :
    ((Ppu.mk 4).update_graphics mmu_ly143 4).2.memory CURRENT_SCANLINE_ADDR
      = 144 ∧
    is_bit_set
      (((Ppu.mk 4).update_graphics mmu_ly143 4).2.memory INTERRUPT_FLAG_ADDR)
      0 = false := by
  decide

/-- C5 (amended): the VBlank request bit (IF bit 0) is set in the PPU update
step in which the scanline counter rolls over while LY reads 144, i.e. at
the LY transition from 144 to 145, one full scanline after LY became 144;
at the 143→144 rollover IF bit 0 is left unchanged. -/
theorem C5_vblank_request_at_145 (p : Ppu) (m : Mmu) (cycles : Nat)
    (hlcd : Ppu.is_lcd_enabled m = true)
    (hroll : p.scanline_counter - (cycles : Int) ≤ 0) :
    (m.memory CURRENT_SCANLINE_ADDR = 144 →
       (p.update_graphics m cycles).2.memory CURRENT_SCANLINE_ADDR = 145 ∧
       is_bit_set ((p.update_graphics m cycles).2.memory INTERRUPT_FLAG_ADDR)
         0 = true) ∧
    (m.memory CURRENT_SCANLINE_ADDR = 143 →
       (p.update_graphics m cycles).2.memory CURRENT_SCANLINE_ADDR = 144 ∧
       is_bit_set ((p.update_graphics m cycles).2.memory INTERRUPT_FLAG_ADDR)
         0 = is_bit_set (m.memory INTERRUPT_FLAG_ADDR) 0) := by
  obtain ⟨-, hly, hif⟩ := update_graphics_rollover p m cycles hlcd hroll
  constructor
  · intro h
    rw [hly, hif, h]
    norm_num [MAX_SCANLINE_VALUE]
  · intro h
    rw [hly, hif, h]
    norm_num [MAX_SCANLINE_VALUE]

theorem C5_witness :
    (mmu_ly144.memory CURRENT_SCANLINE_ADDR = 144 →
       ((Ppu.mk 4).update_graphics mmu_ly144 4).2.memory CURRENT_SCANLINE_ADDR
           = 145 ∧
       is_bit_set
         (((Ppu.mk 4).update_graphics mmu_ly144 4).2.memory
           INTERRUPT_FLAG_ADDR) 0 = true) ∧
    (mmu_ly144.memory CURRENT_SCANLINE_ADDR = 143 →
       ((Ppu.mk 4).update_graphics mmu_ly144 4).2.memory CURRENT_SCANLINE_ADDR
           = 144 ∧
       is_bit_set
         (((Ppu.mk 4).update_graphics mmu_ly144 4).2.memory
           INTERRUPT_FLAG_ADDR) 0
         = is_bit_set (mmu_ly144.memory INTERRUPT_FLAG_ADDR) 0) :=
  C5_vblank_request_at_145 (Ppu.mk 4) mmu_ly144 4 (by decide) (by decide)

/-! ## Claim C2 -/

theorem get_bit_val_eq_testBit (d p : Nat) :
    get_bit_val d p = if d.testBit p then 1 else 0 := by
  unfold get_bit_val
  rw [Nat.one_shiftLeft, Nat.and_two_pow]
  cases h : d.testBit p <;> simp [h, Nat.pos_pow_of_pos]

theorem get_lcd_mode_of_bits (m : Mmu)
    (h0 : (m.memory LCD_STATUS_ADDR).testBit 0 = b0)
    (h1 : (m.memory LCD_STATUS_ADDR).testBit 1 = b1) :
    Ppu.get_lcd_mode m =
      (if b1 then (if b0 then LcdMode.LCD_TRANSFER else LcdMode.SPRITE_SEARCH)
       else (if b0 then LcdMode.V_BLANK else LcdMode.H_BLANK)) := by
  unfold Ppu.get_lcd_mode
  rw [Mmu.read_byte_mem _ _ (by decide) (Or.inr (by decide))]
  rw [get_bit_val_eq_testBit, get_bit_val_eq_testBit, h0, h1]
  cases b0 <;> cases b1 <;> simp

/-- C2: with the LCD enabled and the scanline counter in its reachable range
(at most 456), `update_lcd_status` writes mode 0 (HBlank) into STAT for
*every* scanline below 144 — never mode 2 or 3, because the counter is
compared against `MAX_CYCLES_PER_FRAME - 80` (70144) and
`MAX_CYCLES_PER_FRAME - 252` (69972), thresholds the 456-cycle counter can
never reach — and mode 1 (VBlank) for every scanline at 144 or above.  The
claimed 2→3→0 mode sequence inside a scanline therefore never happens. -/
theorem C2_mode_never_2_or_3 (p : Ppu) (m : Mmu)
    (hlcd : Ppu.is_lcd_enabled m = true)
    (hctr : p.scanline_counter ≤ 456) :
    (m.memory CURRENT_SCANLINE_ADDR < 144 →
       Ppu.get_lcd_mode (p.update_lcd_status m).2 = LcdMode.H_BLANK) ∧
    (144 ≤ m.memory CURRENT_SCANLINE_ADDR →
       Ppu.get_lcd_mode (p.update_lcd_status m).2 = LcdMode.V_BLANK) := by
  have hbits :
      (m.memory CURRENT_SCANLINE_ADDR < 144 →
        ((p.update_lcd_status m).2.memory LCD_STATUS_ADDR).testBit 0 = false ∧
        ((p.update_lcd_status m).2.memory LCD_STATUS_ADDR).testBit 1 = false) ∧
      (144 ≤ m.memory CURRENT_SCANLINE_ADDR →
        ((p.update_lcd_status m).2.memory LCD_STATUS_ADDR).testBit 0 = true ∧
        ((p.update_lcd_status m).2.memory LCD_STATUS_ADDR).testBit 1 = false) := by
    have hrd44 : m.read_byte CURRENT_SCANLINE_ADDR
        = m.memory CURRENT_SCANLINE_ADDR :=
      Mmu.read_byte_mem _ _ (by decide) (Or.inr (by decide))
    have t1 : Nat.testBit 252 0 = false := by decide
    have t2 : Nat.testBit 252 1 = false := by decide
    have t3 : Nat.testBit 4 0 = false := by decide
    have t4 : Nat.testBit 4 1 = false := by decide
    have t5 : Nat.testBit 251 0 = true := by decide
    have t6 : Nat.testBit 251 1 = true := by decide
    have t7 : Nat.testBit 1 0 = true := by decide
    have t8 : Nat.testBit 1 1 = false := by decide
    have t9 : Nat.testBit 2 0 = false := by decide
    have t10 : Nat.testBit 2 1 = true := by decide
    unfold Ppu.update_lcd_status
    rw [if_neg (by simp [hlcd])]
    dsimp only
    rw [hrd44]
    constructor
    · intro hly
      have hA : ¬(m.memory CURRENT_SCANLINE_ADDR ≥ 144) := by omega
      have hB : ¬(p.scanline_counter ≥ (MAX_CYCLES_PER_FRAME : Int) - 80) := by
        simp only [MAX_CYCLES_PER_FRAME]
        omega
      have hC : ¬(p.scanline_counter ≥ (MAX_CYCLES_PER_FRAME : Int) - 80 - 172) := by
        simp only [MAX_CYCLES_PER_FRAME]
        omega
      rw [if_neg hA, if_neg hB, if_neg hC]
      dsimp only
      split_ifs <;>
        simp_all [set_lcd_mode_eq, update_coincidence_eq, request_interrupt_eq,
          Mmu.open_oam_access, Mmu.open_vram_access, set_bit, reset_bit,
          LcdMode.toNat, Nat.testBit_or, Nat.testBit_and, Nat.testBit_xor,
          t1, t2, t3, t4, t5, t6, t7, t8, t9, t10,
          CURRENT_SCANLINE_ADDR, LCD_STATUS_ADDR, INTERRUPT_FLAG_ADDR]
    · intro hly
      have hA : m.memory CURRENT_SCANLINE_ADDR ≥ 144 := hly
      have hpar : (m.memory 65345 &&& 252) % 2 = 0 := by
        have hb : (m.memory 65345 &&& 252).testBit 0 = false := by
          rw [Nat.testBit_and]
          simp [t1]
        rw [Nat.testBit_zero] at hb
        simp only [decide_eq_false_iff_not] at hb
        omega
      rw [if_pos hA]
      dsimp only
      split_ifs <;>
        simp_all [set_lcd_mode_eq, update_coincidence_eq, request_interrupt_eq,
          Mmu.open_oam_access, Mmu.open_vram_access, set_bit, reset_bit,
          LcdMode.toNat, Nat.testBit_or, Nat.testBit_and, Nat.testBit_xor,
          t1, t2, t3, t4, t5, t6, t7, t8, t9, t10,
          CURRENT_SCANLINE_ADDR, LCD_STATUS_ADDR, INTERRUPT_FLAG_ADDR] <;>
        omega
  constructor
  · intro hly
    obtain ⟨h0, h1⟩ := hbits.1 hly
    rw [get_lcd_mode_of_bits _ h0 h1]
    simp
  · intro hly
    obtain ⟨h0, h1⟩ := hbits.2 hly
    rw [get_lcd_mode_of_bits _ h0 h1]
    simp

theorem C2_witness :
    (mmu_ly0.memory CURRENT_SCANLINE_ADDR < 144 →
       Ppu.get_lcd_mode ((Ppu.mk 456).update_lcd_status mmu_ly0).2
         = LcdMode.H_BLANK) ∧
    (144 ≤ mmu_ly0.memory CURRENT_SCANLINE_ADDR →
       Ppu.get_lcd_mode ((Ppu.mk 456).update_lcd_status mmu_ly0).2
         = LcdMode.V_BLANK) :=
  C2_mode_never_2_or_3 (Ppu.mk 456) mmu_ly0 (by decide) (by decide)

/-! ## Claim C1 -/

theorem is_interrupt_enabled_eq (m : Mmu) (i : Nat) :
    is_interrupt_enabled m i
      = (m.memory INTERRUPT_ENABLE_ADDR).testBit i := by
  unfold is_interrupt_enabled
  rw [Mmu.read_byte_mem _ _ (by decide) (Or.inr (by decide)),
      is_bit_set_eq_testBit]

theorem is_interrupt_requested_eq (m : Mmu) (i : Nat) :
    is_interrupt_requested m i
      = (m.memory INTERRUPT_FLAG_ADDR).testBit i := by
  unfold is_interrupt_requested
  rw [Mmu.read_byte_mem _ _ (by decide) (Or.inr (by decide)),
      is_bit_set_eq_testBit]

/-- The interrupt returned by `get_servicable_interrupt` is enabled,
requested, and of lowest index among the enabled-and-requested ones. -/
theorem get_servicable_spec (m : Mmu) (intr : Interrupt)
    (hs : get_servicable_interrupt m = some intr) :
    (is_interrupt_enabled m (interrupt_position intr) = true ∧
     is_interrupt_requested m (interrupt_position intr) = true) ∧
    ∀ j, j < interrupt_position intr →
      ¬(is_interrupt_enabled m j = true ∧
        is_interrupt_requested m j = true) := by
  unfold get_servicable_interrupt at hs
  split_ifs at hs with h0 h1 h2 h3 h4
  · cases hs
    refine ⟨h0, ?_⟩
    intro j hj
    simp [interrupt_position] at hj
  · cases hs
    refine ⟨h1, ?_⟩
    intro j hj h
    simp only [interrupt_position] at hj
    interval_cases j
    · exact h0 h
  · cases hs
    refine ⟨h2, ?_⟩
    intro j hj h
    simp only [interrupt_position] at hj
    interval_cases j
    · exact h0 h
    · exact h1 h
  · cases hs
    refine ⟨h3, ?_⟩
    intro j hj h
    simp only [interrupt_position] at hj
    interval_cases j
    · exact h0 h
    · exact h1 h
    · exact h2 h
  · cases hs
    refine ⟨h4, ?_⟩
    intro j hj h
    simp only [interrupt_position] at hj
    interval_cases j
    · exact h0 h
    · exact h1 h
    · exact h2 h
    · exact h3 h

/-- Whenever some bit of `IE & IF & 0x1F` is set, the interrupt controller
finds a servicable interrupt. -/
theorem pending_has_servicable (m : Mmu)
    (hpend : m.memory INTERRUPT_ENABLE_ADDR &&&
             m.memory INTERRUPT_FLAG_ADDR &&& 0x1F ≠ 0) :
    ∃ intr, get_servicable_interrupt m = some intr := by
  have b0 : Nat.testBit 31 0 = true := by decide
  have b1 : Nat.testBit 31 1 = true := by decide
  have b2 : Nat.testBit 31 2 = true := by decide
  have b3 : Nat.testBit 31 3 = true := by decide
  have b4 : Nat.testBit 31 4 = true := by decide
  unfold get_servicable_interrupt
  split_ifs with h0 h1 h2 h3 h4
  · exact ⟨_, rfl⟩
  · exact ⟨_, rfl⟩
  · exact ⟨_, rfl⟩
  · exact ⟨_, rfl⟩
  · exact ⟨_, rfl⟩
  · exfalso
    apply hpend
    apply Nat.eq_of_testBit_eq
    intro k
    simp only [is_interrupt_enabled_eq, is_interrupt_requested_eq]
      at h0 h1 h2 h3 h4
    simp only [Nat.testBit_and, Nat.zero_testBit, Bool.and_eq_false_imp]
    by_cases hk : k < 5
    · interval_cases k <;>
        (cases hie : (m.memory INTERRUPT_ENABLE_ADDR).testBit _ <;>
         cases hif : (m.memory INTERRUPT_FLAG_ADDR).testBit _ <;>
         simp_all)
    · have h31 : Nat.testBit 31 k = false := by
        apply Nat.testBit_eq_false_of_lt
        calc (31 : Nat) < 2 ^ 5 := by norm_num
        _ ≤ 2 ^ k := Nat.pow_le_pow_right (by norm_num) (by omega)
      simp [h31]

/-- C1 (amended): when IME is set and some bit of `IE & IF & 0x1F` is set
(with SP inside WRAM so the pushes land in plain memory, and PC a 16-bit
value), `handle_interrupts` services the lowest-index pending enabled
interrupt: it clears that IF bit, clears IME, unhalts the CPU, decrements SP
by 2 pushing the old PC (low byte at the new SP, high byte at SP+1), and
sets PC to that interrupt's vector.  Contrary to the original claim, NO
cycles are consumed or reported to the Timer and the PPU: the timer state
and the PPU state are unchanged (`service_interrupt` never calls
`sync_cycles`). -/
theorem C1_interrupt_service (c : Cpu)
    (hime : c.interrupts_enabled = true)
    (hpend : c.mmu.memory INTERRUPT_ENABLE_ADDR &&&
             c.mmu.memory INTERRUPT_FLAG_ADDR &&& 0x1F ≠ 0)
    (hsp1 : 0xC002 ≤ c.stack_pointer) (hsp2 : c.stack_pointer ≤ 0xDFFF)
    (hpc : c.program_counter < 0x10000) :
    ∃ intr,
      get_servicable_interrupt c.mmu = some intr ∧
      (is_interrupt_enabled c.mmu (interrupt_position intr) = true ∧
       is_interrupt_requested c.mmu (interrupt_position intr) = true ∧
       ∀ j, j < interrupt_position intr →
         ¬(is_interrupt_enabled c.mmu j = true ∧
           is_interrupt_requested c.mmu j = true)) ∧
      c.handle_interrupts.interrupts_enabled = false ∧
      c.handle_interrupts.halted = false ∧
      c.handle_interrupts.program_counter = interrupt_vector intr ∧
      c.handle_interrupts.stack_pointer = c.stack_pointer - 2 ∧
      c.handle_interrupts.mmu.memory (c.stack_pointer - 2)
        = c.program_counter &&& 0xFF ∧
      c.handle_interrupts.mmu.memory (c.stack_pointer - 1)
        = c.program_counter >>> 8 ∧
      c.handle_interrupts.mmu.memory INTERRUPT_FLAG_ADDR
        = reset_bit (c.mmu.memory INTERRUPT_FLAG_ADDR)
            (interrupt_position intr) ∧
      c.handle_interrupts.timer = c.timer ∧
      c.handle_interrupts.ppu = c.ppu := by
  obtain ⟨intr, hs⟩ := pending_has_servicable c.mmu hpend
  obtain ⟨⟨hen, hrq⟩, hlow⟩ := get_servicable_spec c.mmu intr hs
  have e1 : (c.stack_pointer + 0x10000 - 1) % 0x10000
      = c.stack_pointer - 1 := by omega
  have e2 : (c.stack_pointer - 1 + 0x10000 - 1) % 0x10000
      = c.stack_pointer - 2 := by omega
  have e3 : (c.program_counter >>> 8) % 256 = c.program_counter >>> 8 := by
    rw [Nat.shiftRight_eq_div_pow]
    omega
  have e4 : (c.program_counter &&& 0xFF) % 256
      = c.program_counter &&& 0xFF :=
    Nat.mod_eq_of_lt (lt_of_le_of_lt Nat.and_le_right (by norm_num))
  refine ⟨intr, hs, ⟨hen, hrq, hlow⟩, ?_⟩
  unfold Cpu.handle_interrupts
  rw [hs]
  unfold Cpu.service_interrupt Cpu.push_word_to_stack Cpu.push_byte_to_stack
    Cpu.write_memory Cpu.read_memory
  dsimp only
  rw [if_pos hime]
  rw [Mmu.read_byte_mem _ _ (by decide) (Or.inr (by decide))]
  rw [Mmu.write_byte_mem _ INTERRUPT_FLAG_ADDR _ (by decide)
        (Or.inr (by decide)) (by decide)
        (by decide) (by decide) (by decide) (by decide) (by decide)
        (by decide) (by decide)]
  dsimp only
  try simp only [e1, e2]
  rw [Mmu.write_byte_mem _ (c.stack_pointer - 1) _ (by omega)
        (Or.inl (by omega))
        (by simp only [JOYPAD_REGISTER_ADDR]; omega)
        (by simp only [DIVIDER_REGISTER_ADDR]; omega)
        (by simp only [CURRENT_SCANLINE_ADDR]; omega)
        (by omega) (by omega)
        (by simp only [TIMER_CONTROL_ADDR]; omega)
        (by simp only [BACKGROUND_PALETTE_DATA_ADDR]; omega)
        (by simp only [OBJECT_PALETTE_DATA_ADDR]; omega)]
  dsimp only
  try simp only [e1, e2]
  rw [Mmu.write_byte_mem _ (c.stack_pointer - 2) _ (by omega)
        (Or.inl (by omega))
        (by simp only [JOYPAD_REGISTER_ADDR]; omega)
        (by simp only [DIVIDER_REGISTER_ADDR]; omega)
        (by simp only [CURRENT_SCANLINE_ADDR]; omega)
        (by omega) (by omega)
        (by simp only [TIMER_CONTROL_ADDR]; omega)
        (by simp only [BACKGROUND_PALETTE_DATA_ADDR]; omega)
        (by simp only [OBJECT_PALETTE_DATA_ADDR]; omega)]
  dsimp only
  try simp only [e1, e2]
  refine ⟨?_, ?_, ?_, ?_, ?_, ?_, ?_, ?_, ?_⟩
  · trivial
  · trivial
  · cases intr <;> rfl
  · trivial
  · simp [e4]
  · rw [if_neg (by omega)]
    simp [e3]
  · rw [if_neg (by simp only [INTERRUPT_FLAG_ADDR]; omega),
        if_neg (by simp only [INTERRUPT_FLAG_ADDR]; omega)]
    simp
  · trivial
  · trivial

/-- C1 counterexample: from `cpu_int` the pending VBlank interrupt is
serviced (PC becomes 0x40), yet no T-cycles are reported to the Timer or
the PPU: the timer counters and the PPU dot counter are exactly as before
(had 20 T-cycles been consumed as the claim states, the enabled LCD's dot
counter would read 436, not 456). -/
theorem C1_counterexample :
    cpu_int.handle_interrupts.program_counter = 0x40 ∧
    cpu_int.handle_interrupts.timer = cpu_int.timer ∧
    cpu_int.handle_interrupts.ppu = cpu_int.ppu ∧
    cpu_int.handle_interrupts.ppu.scanline_counter = 456 :=
  ⟨rfl, rfl, rfl, rfl⟩

theorem C1_witness :
    ∃ intr,
      get_servicable_interrupt cpu_int.mmu = some intr ∧
      (is_interrupt_enabled cpu_int.mmu (interrupt_position intr) = true ∧
       is_interrupt_requested cpu_int.mmu (interrupt_position intr) = true ∧
       ∀ j, j < interrupt_position intr →
         ¬(is_interrupt_enabled cpu_int.mmu j = true ∧
           is_interrupt_requested cpu_int.mmu j = true)) ∧
      cpu_int.handle_interrupts.interrupts_enabled = false ∧
      cpu_int.handle_interrupts.halted = false ∧
      cpu_int.handle_interrupts.program_counter = interrupt_vector intr ∧
      cpu_int.handle_interrupts.stack_pointer
        = cpu_int.stack_pointer - 2 ∧
      cpu_int.handle_interrupts.mmu.memory (cpu_int.stack_pointer - 2)
        = cpu_int.program_counter &&& 0xFF ∧
      cpu_int.handle_interrupts.mmu.memory (cpu_int.stack_pointer - 1)
        = cpu_int.program_counter >>> 8 ∧
      cpu_int.handle_interrupts.mmu.memory INTERRUPT_FLAG_ADDR
        = reset_bit (cpu_int.mmu.memory INTERRUPT_FLAG_ADDR)
            (interrupt_position intr) ∧
      cpu_int.handle_interrupts.timer = cpu_int.timer ∧
      cpu_int.handle_interrupts.ppu = cpu_int.ppu :=
  C1_interrupt_service cpu_int rfl (by decide) (by decide) (by decide)
    (by decide)

end RustyBoy
